import Mathlib

/-!
# Verification of the health-sync synchronization engine

A shallow embedding, in Lean 4, of the core of the `health_sync` Python
package: the durable store (`health_sync/db.py`), the provider runtime
helpers (`health_sync/providers/runtime.py`, `health_sync/providers/oura.py`)
and the HTTP retry client (`health_sync/util.py`).  Pure Python functions
become Lean functions; the SQLite-backed store becomes explicit state
passing over a `Tables` value; the savepoint machinery becomes an explicit
snapshot stack; exceptions become `Option`-valued error results (`Except`
where an uncaught raise must be distinguished from a decided value).  All
definitions are executable.
-/

namespace HealthSync

/-! ## JSON values and serialization

Models the JSON-serializable Python values handled by the engine.  Numbers
are modelled as integers (the records exercised by the engine carry integer
scores/steps/epochs; floats are outside the embedding).  An object is an
insertion-ordered association list, matching Python `dict` iteration order.
-/

inductive Json where
  | null : Json
  | bool (b : Bool) : Json
  | num (n : Int) : Json
  | str (s : String) : Json
  | arr (xs : List Json) : Json
  | obj (kvs : List (String × Json)) : Json
deriving Repr

/-- Four lowercase hex digits. -/
def hex4 (n : Nat) : List Char :=
  ((Nat.toDigits 16 n).reverse.takeD 4 '0').reverse

/-- JSON string escaping as produced by `json.dumps(..., ensure_ascii=True)`:
`"` and `\` are backslash-escaped, characters outside `0x20..0x7e` become
`\uXXXX` (a surrogate pair beyond the BMP); `\n`, `\t`, `\r`, `\b`, `\f`
use the short forms. -/
def jsonEscapeChar (c : Char) : List Char :=
  if c = '"' then ['\\', '"']
  else if c = '\\' then ['\\', '\\']
  else if c = '\n' then ['\\', 'n']
  else if c = '\t' then ['\\', 't']
  else if c = '\r' then ['\\', 'r']
  else if c.toNat = 8 then ['\\', 'b']
  else if c.toNat = 12 then ['\\', 'f']
  else if c.toNat < 32 ∨ c.toNat > 126 then
    if c.toNat < 0x10000 then '\\' :: 'u' :: hex4 c.toNat
    else
      let n := c.toNat - 0x10000
      '\\' :: 'u' :: hex4 (0xD800 + n / 0x400) ++ '\\' :: 'u' :: hex4 (0xDC00 + n % 0x400)
  else [c]

def jsonEscape (s : String) : String :=
  ⟨'"' :: (s.data.flatMap jsonEscapeChar) ++ ['"']⟩

mutual
/-- `json.dumps(v, separators=(",", ":"), ensure_ascii=True)`: the compact
serialization used by `HealthSyncDb.upsert_record` for `payload_json`
(object keys in insertion order). -/
def Json.dumps : Json → String
  | .null => "null"
  | .bool true => "true"
  | .bool false => "false"
  | .num n => toString n
  | .str s => jsonEscape s
  | .arr xs => "[" ++ Json.dumpsList xs ++ "]"
  | .obj kvs => "\x7b" ++ Json.dumpsObj kvs ++ "\x7d"
termination_by structural v => v

def Json.dumpsList : List Json → String
  | [] => ""
  | [x] => Json.dumps x
  | x :: xs => Json.dumps x ++ "," ++ Json.dumpsList xs
termination_by structural l => l

def Json.dumpsObj : List (String × Json) → String
  | [] => ""
  | [(k, v)] => jsonEscape k ++ ":" ++ Json.dumps v
  | (k, v) :: kvs => jsonEscape k ++ ":" ++ Json.dumps v ++ "," ++ Json.dumpsObj kvs
termination_by structural l => l
end

/-- Python string `<`: lexicographic comparison by code point. -/
def strLtChars : List Char → List Char → Bool
  | [], [] => false
  | [], _ :: _ => true
  | _ :: _, [] => false
  | a :: as, b :: bs =>
    if a.toNat < b.toNat then true
    else if b.toNat < a.toNat then false
    else strLtChars as bs

def keyLt (a b : String) : Bool := strLtChars a.data b.data

/-- Stable insertion into a key-sorted association list: an element goes
before the first entry whose key is not smaller, so earlier elements keep
their relative order (Python's `sorted` is stable). -/
def insertByKey (kv : String × Json) : List (String × Json) → List (String × Json)
  | [] => [kv]
  | hd :: tl => if keyLt hd.1 kv.1 then hd :: insertByKey kv tl else kv :: hd :: tl

def sortByKey : List (String × Json) → List (String × Json)
  | [] => []
  | hd :: tl => insertByKey hd (sortByKey tl)

mutual
/-- The recursive key ordering performed by `json.dumps(sort_keys=True)`:
every object at every depth is emitted with its keys sorted. -/
def Json.sortKeys : Json → Json
  | .obj kvs => .obj (sortByKey (Json.sortKeysObj kvs))
  | .arr xs => .arr (Json.sortKeysList xs)
  | .null => .null
  | .bool b => .bool b
  | .num n => .num n
  | .str s => .str s
termination_by structural v => v

def Json.sortKeysList : List Json → List Json
  | [] => []
  | x :: xs => Json.sortKeys x :: Json.sortKeysList xs
termination_by structural l => l

def Json.sortKeysObj : List (String × Json) → List (String × Json)
  | [] => []
  | (k, v) :: kvs => (k, Json.sortKeys v) :: Json.sortKeysObj kvs
termination_by structural l => l
end

/-- `stable_json` (providers/runtime.py): compact JSON with keys sorted
recursively at every nesting level. -/
def stable_json (v : Json) : String :=
  Json.dumps (Json.sortKeys v)

/-- Python `str.strip()` (over the ASCII whitespace the engine's strings
contain). -/
def pyStrip (s : String) : String :=
  ⟨((s.data.dropWhile Char.isWhitespace).reverse.dropWhile Char.isWhitespace).reverse⟩

/-! ## SyncRunStats (db.py lines 23-40) -/

structure SyncRunStats where
  inserted_count : Nat := 0
  updated_count : Nat := 0
  deleted_count : Nat := 0
  unchanged_count : Nat := 0
deriving DecidableEq, Repr

namespace SyncRunStats

/-- `SyncRunStats.add_upsert`: bump the counter matching the upsert
outcome string; any other string changes nothing. -/
def add_upsert (s : SyncRunStats) (operation : String) : SyncRunStats :=
  if operation = "inserted" then { s with inserted_count := s.inserted_count + 1 }
  else if operation = "updated" then { s with updated_count := s.updated_count + 1 }
  else if operation = "unchanged" then { s with unchanged_count := s.unchanged_count + 1 }
  else s

/-- `SyncRunStats.add_delete`: bump `deleted_count` iff a row was deleted. -/
def add_delete (s : SyncRunStats) (deleted : Bool) : SyncRunStats :=
  if deleted then { s with deleted_count := s.deleted_count + 1 } else s

end SyncRunStats

/-! ## Datetime model

Models the slice of Python `datetime` used by the engine: timezone-aware
or naive wall-clock values at full (microsecond) precision.  An aware
value holds its UTC offset in microseconds (`datetime.fromisoformat`
accepts fractional offsets); a naive value holds none.  Instants are
compared through their Unix epoch microseconds.
-/

structure PyDateTime where
  year : Nat
  month : Nat
  day : Nat
  hour : Nat
  minute : Nat
  second : Nat
  /-- microseconds within the second, below 1000000 for parser outputs -/
  usec : Nat
  /-- UTC offset in microseconds east of UTC; `none` means a naive value. -/
  tzoffset : Option Int
deriving DecidableEq, Repr

/-- Days from civil date to days since 1970-01-01 (proleptic Gregorian,
as Python's `datetime` uses).  `Int.ediv` is floor division for the
positive divisors used here. -/
def daysFromCivil (y : Int) (m d : Nat) : Int :=
  let y' : Int := if m ≤ 2 then y - 1 else y
  let era : Int := y'.ediv 400
  let yoe : Nat := (y' - era * 400).toNat
  let mp : Nat := if 2 < m then m - 3 else m + 9
  let doy : Nat := (153 * mp + 2) / 5 + d - 1
  let doe : Nat := yoe * 365 + yoe / 4 - yoe / 100 + doy
  era * 146097 + (doe : Int) - 719468

/-- Days since 1970-01-01 back to a civil date. -/
def civilFromDays (z0 : Int) : Int × Nat × Nat :=
  let z : Int := z0 + 719468
  let era : Int := z.ediv 146097
  let doe : Nat := (z - era * 146097).toNat
  let yoe : Nat := (doe - doe / 1460 + doe / 36524 - doe / 146096) / 365
  let y : Int := (yoe : Int) + era * 400
  let doy : Nat := doe - (365 * yoe + yoe / 4 - yoe / 100)
  let mp : Nat := (5 * doy + 2) / 153
  let d : Nat := doy - (153 * mp + 2) / 5 + 1
  let m : Nat := if mp < 10 then mp + 3 else mp - 9
  ((if m ≤ 2 then y + 1 else y), m, d)

/-- Epoch microseconds of a `PyDateTime`; a naive value is read as UTC
(every call site below attaches UTC to naive values first, mirroring
`v.replace(tzinfo=UTC)`). -/
def PyDateTime.toEpochUs (d : PyDateTime) : Int :=
  daysFromCivil (d.year : Int) d.month d.day * 86400000000
    + ((d.hour * 3600 + d.minute * 60 + d.second) * 1000000 + d.usec : Nat)
    - (d.tzoffset.getD 0)

/-- `datetime.replace(tzinfo=UTC)` applied only when the value is naive. -/
def PyDateTime.withUTCIfNaive (d : PyDateTime) : PyDateTime :=
  { d with tzoffset := some (d.tzoffset.getD 0) }

/-- `datetime.fromtimestamp(e, tz=UTC)` at integer-second input (total
here; Python raises outside years 1..9999, and the theorems below carry
that range as a hypothesis where the source does not catch it). -/
def epochToUTC (e : Int) : PyDateTime :=
  let days := e.ediv 86400
  let sod := (e.emod 86400).toNat
  let (y, m, d) := civilFromDays days
  ⟨y.toNat, m, d, sod / 3600, sod % 3600 / 60, sod % 60, 0, some 0⟩

/-- Smallest epoch representable by `datetime` (0001-01-01T00:00:00Z). -/
def minEpoch : Int := -62135596800
/-- Largest epoch representable by `datetime` (9999-12-31T23:59:59Z). -/
def maxEpoch : Int := 253402300799
/-- Smallest epoch instant, in microseconds. -/
def minEpochUs : Int := minEpoch * 1000000
/-- Largest epoch instant (9999-12-31T23:59:59.999999Z), in microseconds. -/
def maxEpochUs : Int := maxEpoch * 1000000 + 999999

/-- Two decimal digits (`%02d` for values below 100). -/
def pad2 (n : Nat) : List Char :=
  [Nat.digitChar (n / 10 % 10), Nat.digitChar (n % 10)]

/-- Four decimal digits (`%04d` for values below 10000). -/
def pad4 (n : Nat) : List Char :=
  [Nat.digitChar (n / 1000 % 10), Nat.digitChar (n / 100 % 10),
   Nat.digitChar (n / 10 % 10), Nat.digitChar (n % 10)]

/-- `dt.isoformat().replace("+00:00", "Z")` for a UTC value at second
precision: the canonical `YYYY-MM-DDTHH:MM:SSZ` rendering. -/
def formatZ (d : PyDateTime) : String :=
  ⟨pad4 d.year ++ '-' :: pad2 d.month ++ '-' :: pad2 d.day ++
   'T' :: pad2 d.hour ++ ':' :: pad2 d.minute ++ ':' :: pad2 d.second ++ ['Z']⟩

/-- The canonical-form check: exactly `YYYY-MM-DDTHH:MM:SSZ`. -/
def isCanonicalTs (s : String) : Bool :=
  match s.data with
  | [y1, y2, y3, y4, h1, m1, m2, h2, d1, d2, t, H1, H2, c1, M1, M2, c2, S1, S2, z] =>
    y1.isDigit && y2.isDigit && y3.isDigit && y4.isDigit && h1 = '-' &&
    m1.isDigit && m2.isDigit && h2 = '-' && d1.isDigit && d2.isDigit &&
    t = 'T' && H1.isDigit && H2.isDigit && c1 = ':' && M1.isDigit && M2.isDigit &&
    c2 = ':' && S1.isDigit && S2.isDigit && z = 'Z'
  | _ => false

/-! ### Parsing (`datetime.fromisoformat` and helpers)

`datetime.fromisoformat` (Python 3.11) is the C implementation in
`Modules/_datetimemodule.c`: a separator-position heuristic
(`find_isoformat_datetime_separator`) distinguishes the supported date
shapes (`YYYY-MM-DD`, `YYYYMMDD`, `YYYY-Www[-D]`, `YYYYWww[D]`), the date
parser handles both the month/day and the ISO-week forms, and the time
parser (`parse_hh_mm_ss_ff`) reads two-digit components with a consistent
separator, a fraction (`.` or `,`) after any component, and an optional
offset `Z` / `±` followed by the same component parser.  Validation
mirrors the `datetime` constructor (year 1..9999, hour below 24,
minute/second below 60) and `timezone` creation (offset magnitude
strictly below 24 hours). -/

def isAsciiDigit (c : Char) : Bool := '0' ≤ c ∧ c ≤ '9'

/-- `str.isdigit` restricted to ASCII digits (the engine's watermarks and
cursors are ASCII). -/
def isDigits (s : String) : Bool :=
  !s.data.isEmpty && s.data.all isAsciiDigit

def digitsToNat (cs : List Char) : Nat :=
  cs.foldl (fun a c => a * 10 + (c.toNat - 48)) 0

def strToNat (s : String) : Nat := digitsToNat s.data

/-- Days in a month of the proleptic Gregorian calendar. -/
def daysInMonth (y : Nat) (m : Nat) : Nat :=
  if m = 2 then
    if y % 4 = 0 ∧ (y % 100 ≠ 0 ∨ y % 400 = 0) then 29 else 28
  else if m = 4 ∨ m = 6 ∨ m = 9 ∨ m = 11 then 30
  else 31

/-- `find_isoformat_datetime_separator`: the index of the single date-time
separator character, decided from the length and characters 4, 5, 8 and 10
of the string.  A 7-character string splits at 7.  For a dashed ISO-week
date a hyphen at index 8 followed by a digit at index 10 is read as the
separator at 8, otherwise the separator sits at 10 (with a day) or 8.  For
a basic ISO-week date the run of consecutive digits from index 7 decides:
a run ending before index 9 ends at the separator; a longer run ending at
an even index means `YYYYWwwD` plus an unseparated time (separator 7),
an odd one `YYYYWwwD` plus a separator at 8.  `none` is the error return
(dashed week shapes shorter than 8, or the bare `YYYY-Www-`). -/
def findIsoSep (cs : List Char) : Option Nat :=
  let n := cs.length
  if n = 7 then some 7
  else if cs.getD 4 '\x00' = '-' then
    if cs.getD 5 '\x00' = 'W' then
      if n < 8 then none
      else if 8 < n ∧ cs.getD 8 '\x00' = '-' then
        if n = 9 then none
        else if 10 < n ∧ isAsciiDigit (cs.getD 10 '\x00') then some 8
        else some 10
      else some 8
    else some 10
  else if cs.getD 4 '\x00' = 'W' then
    let idx := 7 + ((cs.drop 7).takeWhile isAsciiDigit).length
    if idx < 9 then some idx
    else if idx % 2 = 0 then some 7
    else some 8
  else some 8

/-- Whether January 1st of the year falls on this weekday (Monday = 0);
`weekday(year, 1, 1)` over days-since-1970 (1970-01-01 is a Thursday). -/
def isoFirstWeekday (y : Nat) : Int := (daysFromCivil (y : Int) 1 1 + 3).emod 7

/-- `iso_week1_monday`: the Monday of ISO week 1, in days since
1970-01-01. -/
def isoWeek1Monday (y : Nat) : Int :=
  let firstday := daysFromCivil (y : Int) 1 1
  let firstweekday := (firstday + 3).emod 7
  let week1monday := firstday - firstweekday
  if 3 < firstweekday then week1monday + 7 else week1monday

/-- `iso_to_ymd` followed by the `datetime` constructor's year check: week
53 exists only in long years (January 1st a Thursday, or a leap year
starting on a Wednesday), the day is 1..7, and the resulting Gregorian
date must lie in years 1..9999 (the conversion may leave that range, e.g.
`9999-W52-6`). -/
def iso_to_ymd (iy iw idy : Nat) : Option (Nat × Nat × Nat) :=
  let longYear := isoFirstWeekday iy = 3 ∨
    (isoFirstWeekday iy = 2 ∧ iy % 4 = 0 ∧ (iy % 100 ≠ 0 ∨ iy % 400 = 0))
  if (1 ≤ iw ∧ iw ≤ 52) ∨ (iw = 53 ∧ longYear) then
    if 1 ≤ idy ∧ idy ≤ 7 then
      let days := isoWeek1Monday iy + ((iw - 1) * 7 + (idy - 1) : Nat)
      match civilFromDays days with
      | (yy, mm, dd) => if 1 ≤ yy ∧ yy ≤ 9999 then some (yy.toNat, mm, dd) else none
    else none
  else none

/-- The `datetime` constructor's date validation: year 1..9999, month
1..12, day within the month. -/
def mkValidDate (y m d : Nat) : Option (Nat × Nat × Nat) :=
  if 1 ≤ y ∧ y ≤ 9999 ∧ 1 ≤ m ∧ m ≤ 12 ∧ 1 ≤ d ∧ d ≤ daysInMonth y m then
    some (y, m, d)
  else none

/-- The ISO-week tail of `parse_isoformat_date`, after `W`: two week
digits; then either nothing (day 1), or — after a mandatory `-` when the
date uses separators — exactly one day digit. -/
def parseIsoWeek (y : Nat) (usesSep : Bool) (cs : List Char) :
    Option (Nat × Nat × Nat) :=
  match cs with
  | w1 :: w2 :: rest =>
    if isAsciiDigit w1 && isAsciiDigit w2 then
      let w := digitsToNat [w1, w2]
      match rest with
      | [] => iso_to_ymd y w 1
      | _ =>
        let dayCs : Option (List Char) :=
          if usesSep then
            match rest with
            | '-' :: r => some r
            | _ => none
          else some rest
        match dayCs with
        | some [d1] => if isAsciiDigit d1 then iso_to_ymd y w (d1.toNat - 48) else none
        | _ => none
    else none
  | _ => none

/-- `parse_isoformat_date` over the characters before the separator
position: four year digits, then either the ISO-week form (a `W` right
after the year or after a `-`) or month and day (two digits each, with
`-` separators exactly when the year was followed by one).  The
separator-position computation makes the month/day shapes consume the
slice exactly. -/
def parseIsoDate (cs : List Char) : Option (Nat × Nat × Nat) :=
  match cs with
  | y1 :: y2 :: y3 :: y4 :: rest =>
    if isAsciiDigit y1 && isAsciiDigit y2 && isAsciiDigit y3 && isAsciiDigit y4 then
      let y := digitsToNat [y1, y2, y3, y4]
      match rest with
      | '-' :: 'W' :: rest2 => parseIsoWeek y true rest2
      | 'W' :: rest2 => parseIsoWeek y false rest2
      | ['-', m1, m2, '-', d1, d2] =>
        if isAsciiDigit m1 && isAsciiDigit m2 && isAsciiDigit d1 && isAsciiDigit d2 then
          mkValidDate y (digitsToNat [m1, m2]) (digitsToNat [d1, d2])
        else none
      | [m1, m2, d1, d2] =>
        if isAsciiDigit m1 && isAsciiDigit m2 && isAsciiDigit d1 && isAsciiDigit d2 then
          mkValidDate y (digitsToNat [m1, m2]) (digitsToNat [d1, d2])
        else none
      | _ => none
    else none
  | _ => none

/-- `parse_digits` for exactly two digits. -/
def tParse2 : List Char → Option (Nat × List Char)
  | a :: b :: rest =>
    if isAsciiDigit a && isAsciiDigit b then some (digitsToNat [a, b], rest) else none
  | _ => none

/-- The fractional part of `parse_hh_mm_ss_ff`: the first `min 6 len`
characters must be digits and scale to microseconds (`d` digits count
`d * 10 ^ (6 - d)`); any further characters must also be digits and are
discarded.  Every path into this parse has at least one character left. -/
def tParseFrac (rem : List Char) : Option Nat :=
  if rem.isEmpty then none
  else
    let to_parse := min 6 rem.length
    if (rem.take to_parse).all isAsciiDigit && (rem.drop to_parse).all isAsciiDigit then
      some (digitsToNat (rem.take to_parse) * 10 ^ (6 - to_parse))
    else none

/-- The three-component loop of `parse_hh_mm_ss_ff`, with `fuel + 1`
components left to read (`fuel = 2` reads the hours).  After each
two-digit component the parser consumes one more character `c`: at the
very end of the slice that is the NUL terminator (`atEnd`) or the
boundary character after the slice — the C code returns 1 in the latter
case (the Bool here) and the caller treats that as an error unless the
boundary is a timezone character.  Otherwise `c` continues a separated
component (`:` when the first component ended with `:`), starts a
fraction (`.` or `,`), or — in the unseparated form — is put back and
read as digits. -/
def tCompLoop (atEnd : Bool) : Nat → Bool → List Nat → List Char →
    Option (List Nat × Nat × Bool)
  | 0, _, _, _ => none
  | fuel + 1, has_sep, acc, cs =>
    match tParse2 cs with
    | none => none
    | some (v, rest) =>
      match rest with
      | [] => some (acc ++ [v], 0, !atEnd)
      | c :: rest2 =>
        let hs := if fuel = 2 then c = ':' else has_sep
        if rest2.isEmpty then some (acc ++ [v], 0, true)
        else if hs ∧ c = ':' then
          if fuel = 0 then (tParseFrac rest2).map (fun us => (acc ++ [v], us, false))
          else tCompLoop atEnd fuel hs (acc ++ [v]) rest2
        else if c = '.' ∨ c = ',' then
          (tParseFrac rest2).map (fun us => (acc ++ [v], us, false))
        else if ¬ hs then
          if fuel = 0 then
            (tParseFrac (c :: rest2)).map (fun us => (acc ++ [v], us, false))
          else tCompLoop atEnd fuel hs (acc ++ [v]) (c :: rest2)
        else none

/-- `parse_hh_mm_ss_ff`: `HH[:?MM[:?SS]]` with an optional fraction.
`atEnd` says whether this slice ends at the true end of the string.
Returns hour, minute, second, microseconds and the consumed-boundary
flag (C return value 1). -/
def parse_hh_mm_ss_ff (cs : List Char) (atEnd : Bool) :
    Option (Nat × Nat × Nat × Nat × Bool) :=
  match tCompLoop atEnd 3 false [] cs with
  | none => none
  | some (comps, us, rv1) =>
    some (comps.getD 0 0, comps.getD 1 0, comps.getD 2 0, us, rv1)

/-- Split the time string at the first `Z`, `+` or `-` (the timezone scan
of `parse_isoformat_time`). -/
def splitTz : List Char → List Char × Option (Char × List Char)
  | [] => ([], none)
  | c :: rest =>
    if c = 'Z' ∨ c = '+' ∨ c = '-' then ([], some (c, rest))
    else
      match splitTz rest with
      | (pre, tz) => (c :: pre, tz)

/-- `parse_isoformat_time`: split at the first `Z`/`+`/`-`; the part
before must parse as a time (without having consumed a boundary character
when there is no timezone at all); `Z` must then be the final character,
while a sign introduces a second `parse_hh_mm_ss_ff` whose components
build the offset in microseconds (the `timedelta` normalization carries
minutes or seconds above 59 into the total, and a fraction becomes
fractional-second offset). -/
def parse_isoformat_time (cs : List Char) :
    Option (Nat × Nat × Nat × Nat × Option Int) :=
  match splitTz cs with
  | (timestr, none) =>
    match parse_hh_mm_ss_ff timestr true with
    | some (h, m, s, us, false) => some (h, m, s, us, none)
    | _ => none
  | (timestr, some (tzc, tzrest)) =>
    match parse_hh_mm_ss_ff timestr false with
    | none => none
    | some (h, m, s, us, _) =>
      if tzc = 'Z' then
        if tzrest.isEmpty then some (h, m, s, us, some 0) else none
      else
        let sgn : Int := if tzc = '-' then -1 else 1
        match parse_hh_mm_ss_ff tzrest true with
        | some (th, tm, ts, tus, false) =>
          -- a zero whole-second offset yields the UTC singleton, silently
          -- dropping a fractional-second part
          let secs := th * 3600 + tm * 60 + ts
          if secs = 0 then some (h, m, s, us, some 0)
          else some (h, m, s, us, some (sgn * (secs * 1000000 + tus : Nat)))
        | _ => none

/-- `timezone` creation: the offset magnitude is strictly below 24
hours. -/
def tzOffsetOk : Option Int → Bool
  | some o => o.natAbs < 86400000000
  | none => true

/-- `datetime.fromisoformat` (Python 3.11): see the section comment.
Returns an aware or naive `PyDateTime` with microseconds. -/
def fromisoformat (s : String) : Option PyDateTime :=
  let cs := s.data
  let n := cs.length
  if n < 7 then none
  else
    match findIsoSep cs with
    | none => none
    | some sep =>
      match parseIsoDate (cs.take sep) with
      | none => none
      | some (y, m, d) =>
        if n ≤ sep then some ⟨y, m, d, 0, 0, 0, 0, none⟩
        else
          match parse_isoformat_time (cs.drop (sep + 1)) with
          | none => none
          | some (hh, mm, ss, us, off) =>
            -- the constructor's time checks; `us` is below 1000000 by
            -- construction of the fraction parse
            if hh ≤ 23 ∧ mm ≤ 59 ∧ ss ≤ 59 ∧ tzOffsetOk off = true then
              some ⟨y, m, d, hh, mm, ss, us, off⟩
            else none

/-- `s.endswith("Z")` / `s[:-1] + "+00:00"`: rewrite a trailing `Z` into
an explicit UTC offset. -/
def zToOffset (s : String) : String :=
  if s.data.getLast? = some 'Z' then ⟨s.data.dropLast ++ "+00:00".data⟩ else s

/-- `iso_to_dt` (util.py): rewrite a trailing `Z` to `+00:00`, then
`datetime.fromisoformat`. -/
def iso_to_dt (s : String) : Option PyDateTime :=
  fromisoformat (zToOffset s)

/-! ## Watermark normalization (`HealthSyncDb._normalize_watermark`) -/

/-- The input domain of `_normalize_watermark`: `str | int | float |
datetime | None` (the outer `Option` is `None`).  `num` carries the value
of `int(v)`, which is what the source applies to both ints and floats. -/
inductive WInput where
  | dt (d : PyDateTime)
  | num (e : Int)
  | str (s : String)
deriving Repr

/-- `v.astimezone(UTC).replace(microsecond=0)` after attaching UTC to a
naive value: UTC fields of the instant, microseconds dropped. -/
def normDT (d : PyDateTime) : PyDateTime :=
  epochToUTC (d.withUTCIfNaive.toEpochUs.ediv 1000000)

/-- The `len(s) == 10 and s[4:5] == "-" and s[7:8] == "-"` guard. -/
def isDate10Shape (s : String) : Bool :=
  s.data.length = 10 && s.data.getD 4 ' ' = '-' && s.data.getD 7 ' ' = '-'

/-- The final branch of `_normalize_watermark`: rewrite a trailing `Z`,
`datetime.fromisoformat`, attach UTC when naive, convert to UTC and drop
microseconds.  `none` covers every exception path (parse failure, or an
`astimezone` conversion leaving the `datetime` range), in which case the
caller returns the string verbatim. -/
def isoBranch (s : String) : Option String :=
  match fromisoformat (zToOffset s) with
  | some d =>
    let e := d.withUTCIfNaive.toEpochUs
    if minEpochUs ≤ e ∧ e ≤ maxEpochUs then
      some (formatZ (epochToUTC (e.ediv 1000000)))
    else none
  | none => none

/-- `HealthSyncDb._normalize_watermark` (db.py lines 425-461).  The `num`
branch is total here, while `datetime.fromtimestamp` raises (uncaught)
outside `minEpoch..maxEpoch`; the theorems about that branch carry the
range as a hypothesis. -/
def _normalize_watermark : Option WInput → Option String
  | none => none
  | some (.dt d) => some (formatZ (normDT d))
  | some (.num e) => some (formatZ (epochToUTC e))
  | some (.str s0) =>
    let s := pyStrip s0
    if s = "" then none
    else if isDigits s then
      -- `datetime.fromtimestamp` raising (year 10000+) is caught: verbatim
      if (strToNat s : Int) ≤ maxEpoch then some (formatZ (epochToUTC (strToNat s)))
      else some s
    else if isDate10Shape s then
      -- `datetime.fromisoformat(f"{s}T00:00:00+00:00")`: the appended tail
      -- fixes time 00:00:00 and offset +00:00, so on success the rendering
      -- `.replace(microsecond=0).isoformat().replace("+00:00", "Z")` is the
      -- canonical form of the parsed fields; failure is caught: verbatim
      match fromisoformat (s ++ "T00:00:00+00:00") with
      | some d => some (formatZ d)
      | none => some s
    else
      match isoBranch s with
      | some out => some out
      | none => some s

/-! ## The durable store (`HealthSyncDb`)

The four SQLite tables become association lists keyed by their primary
keys; `AUTOINCREMENT` becomes the `next_run_id` counter.  `utc_now_iso()`
timestamps are inputs (`fetched_at`, `updated_at`, ...), making the
ambient clock explicit.
-/

structure RecordRow where
  start_time : Option String
  end_time : Option String
  source_updated_at : Option String
  payload_json : String
  fetched_at : String
deriving DecidableEq, Repr

abbrev RecordKey := String × String × String

structure SyncStateRow where
  watermark : Option String
  cursor : Option String
  extra_json : Option String
  updated_at : String
deriving DecidableEq, Repr

structure TokenRow where
  access_token : String
  refresh_token : Option String
  token_type : Option String
  scope : Option String
  expires_at : Option String
  obtained_at : String
  extra_json : Option String
deriving DecidableEq, Repr

structure SyncRunRow where
  id : Nat
  provider : String
  resource : String
  status : String
  started_at : String
  finished_at : Option String
  watermark_before : Option String
  watermark_after : Option String
  inserted_count : Nat
  updated_count : Nat
  deleted_count : Nat
  unchanged_count : Nat
  error_text : Option String
deriving DecidableEq, Repr

structure Tables where
  records : List (RecordKey × RecordRow)
  sync_state : List ((String × String) × SyncStateRow)
  oauth_tokens : List (String × TokenRow)
  sync_runs : List SyncRunRow
  next_run_id : Nat
deriving DecidableEq, Repr

/-- The empty store right after `init()` on a fresh file. -/
def Tables.empty : Tables := ⟨[], [], [], [], 1⟩

/-- `SELECT ... WHERE key=?` on a primary-keyed table. -/
def alookup {α β : Type} [DecidableEq α] : List (α × β) → α → Option β
  | [], _ => none
  | (k, v) :: rest, k' => if k = k' then some v else alookup rest k'

/-- `INSERT ... ON CONFLICT(key) DO UPDATE`: replace the existing row in
place, else append. -/
def aupsert {α β : Type} [DecidableEq α] : List (α × β) → α → β → List (α × β)
  | [], k, v => [(k, v)]
  | (k0, v0) :: rest, k, v =>
    if k0 = k then (k, v) :: rest else (k0, v0) :: aupsert rest k v

namespace HealthSyncDb

/-- `HealthSyncDb.upsert_record` (db.py lines 172-220): serialize the
payload, classify against the stored row byte-for-byte, then write
unconditionally (refreshing `fetched_at`).  `fetched_at` models
`fetched_at or utc_now_iso()`. -/
def upsert_record (db : Tables) (provider resource record_id : String)
    (payload : Json) (start_time end_time source_updated_at : Option String)
    (fetched_at : String) : String × Tables :=
  let payload_json := payload.dumps
  let key : RecordKey := (provider, resource, record_id)
  let op :=
    match alookup db.records key with
    | none => "inserted"
    | some row =>
      if row.payload_json = payload_json ∧ row.start_time = start_time ∧
         row.end_time = end_time ∧ row.source_updated_at = source_updated_at
      then "unchanged" else "updated"
  (op, { db with records := (aupsert db.records key
          ⟨start_time, end_time, source_updated_at, payload_json, fetched_at⟩) })

/-- `HealthSyncDb.delete_record`: `DELETE ... WHERE key=?`, true iff a row
was removed. -/
def delete_record (db : Tables) (provider resource record_id : String) :
    Bool × Tables :=
  let key : RecordKey := (provider, resource, record_id)
  ((alookup db.records key).isSome,
   { db with records := db.records.filter (fun kv => decide (kv.1 ≠ key)) })

def get_sync_state (db : Tables) (provider resource : String) : Option SyncStateRow :=
  alookup db.sync_state (provider, resource)

/-- `HealthSyncDb.set_sync_state`: normalize the watermark, serialize
`extra`, stamp `updated_at` (= `utc_now_iso()`, an input here). -/
def set_sync_state (db : Tables) (provider resource : String)
    (watermark : Option WInput) (cursor : Option String) (extra : Option Json)
    (updated_at : String) : Tables :=
  { db with sync_state := (aupsert db.sync_state (provider, resource)
      ⟨_normalize_watermark watermark, cursor, extra.map Json.dumps, updated_at⟩) }

def get_oauth_token (db : Tables) (provider : String) : Option TokenRow :=
  alookup db.oauth_tokens provider

/-- `HealthSyncDb.set_oauth_token`: last write wins per provider;
`expires_at` is normalized like a watermark. -/
def set_oauth_token (db : Tables) (provider access_token : String)
    (refresh_token token_type scope : Option String) (expires_at : Option WInput)
    (extra : Option Json) (obtained_at : String) : Tables :=
  { db with oauth_tokens := (aupsert db.oauth_tokens provider
      ⟨access_token, refresh_token, token_type, scope,
       _normalize_watermark expires_at, obtained_at, extra.map Json.dumps⟩) }

/-- `HealthSyncDb.start_sync_run`: insert a `running` audit row, return
`lastrowid`. -/
def start_sync_run (db : Tables) (provider resource : String)
    (watermark_before : Option WInput) (started_at : String) : Nat × Tables :=
  let run_id := db.next_run_id
  (run_id,
   { db with
     sync_runs := db.sync_runs ++
       [⟨run_id, provider, resource, "running", started_at, none,
         _normalize_watermark watermark_before, none, 0, 0, 0, 0, none⟩],
     next_run_id := run_id + 1 })

/-- `UPDATE sync_runs SET ... WHERE id=?`. -/
def updateRun (runs : List SyncRunRow) (run_id : Nat) (f : SyncRunRow → SyncRunRow) :
    List SyncRunRow :=
  runs.map (fun row => if row.id = run_id then f row else row)

/-- `HealthSyncDb.finish_sync_run`. -/
def finish_sync_run (db : Tables) (run_id : Nat) (status : String)
    (inserted_count updated_count deleted_count unchanged_count : Nat)
    (watermark_after : Option WInput) (error_text : Option String)
    (finished_at : String) : Tables :=
  { db with sync_runs := updateRun db.sync_runs run_id (fun row =>
      { row with
        status := status, finished_at := some finished_at,
        inserted_count := inserted_count, updated_count := updated_count,
        deleted_count := deleted_count, unchanged_count := unchanged_count,
        watermark_after := _normalize_watermark watermark_after,
        error_text := error_text }) }

end HealthSyncDb

/-- `SELECT * FROM sync_runs WHERE id=?`. -/
def findRun (db : Tables) (run_id : Nat) : Option SyncRunRow :=
  db.sync_runs.find? (fun row => decide (row.id = run_id))

/-! ## Connection state and savepoint-scoped transactions

An open `sqlite3` connection: the current (uncommitted) table contents, a
stack of named savepoint snapshots, and `HealthSyncDb._savepoint_seq`.
`SAVEPOINT` / `ROLLBACK TO SAVEPOINT` / `RELEASE SAVEPOINT` follow SQLite
semantics: rollback-to rewinds the data to the snapshot and discards
savepoints opened after it (keeping the target); release discards the
target and everything after it, merging the writes outward.
-/

structure Conn where
  tables : Tables
  savepoints : List (String × Tables)
  seq : Nat
deriving DecidableEq, Repr

def Conn.fresh (t : Tables) : Conn := ⟨t, [], 0⟩

/-- Drop savepoints newer than `name`; return `name`'s snapshot and the
stack below it. -/
def popTo : List (String × Tables) → String → Option (Tables × List (String × Tables))
  | [], _ => none
  | (n, snap) :: rest, name =>
    if n = name then some (snap, rest) else popTo rest name

/-- `SAVEPOINT name;` -/
def execSavepoint (c : Conn) (name : String) : Conn :=
  { c with savepoints := (name, c.tables) :: c.savepoints }

/-- `ROLLBACK TO SAVEPOINT name;` -/
def execRollbackTo (c : Conn) (name : String) : Conn :=
  match popTo c.savepoints name with
  | some (snap, rest) => { c with tables := snap, savepoints := (name, snap) :: rest }
  | none => c

/-- `RELEASE SAVEPOINT name;` -/
def execRelease (c : Conn) (name : String) : Conn :=
  match popTo c.savepoints name with
  | some (_, rest) => { c with savepoints := rest }
  | none => c

/-- `HealthSyncDb.transaction` (db.py lines 478-492): a scoped savepoint.
The body is the code inside the `with` block: it transforms the connection
and either returns normally (`none`) or raises (`some message`).  On an
exception the writes since the savepoint are rolled back and the exception
propagates; on normal exit they are released into the enclosing context. -/
def HealthSyncDb.transaction (c : Conn) (body : Conn → Conn × Option String) :
    Conn × Option String :=
  let seq := c.seq + 1
  let sp := "tx_" ++ toString seq
  let c1 := execSavepoint { c with seq := seq } sp
  match body c1 with
  | (c2, none) => (execRelease c2 sp, none)
  | (c2, some e) => (execRelease (execRollbackTo c2 sp) sp, some e)

/-- `HealthSyncDb.sync_run` (db.py lines 367-401): capture the watermark
before, insert the `running` audit row, run the body with a fresh
`SyncRunStats`, and finalize exactly once — `success` on normal exit,
`error` (with `str(e)` and a freshly read watermark) when the body raises,
re-raising afterwards.  The body returns its final stats (the mutations it
performed on the yielded `SyncRunStats`) and `some message` when it
raises.  `started_now`/`finished_now` model the two `utc_now_iso()`
calls. -/
def HealthSyncDb.sync_run (c : Conn) (provider resource : String)
    (body : Conn → Conn × SyncRunStats × Option String)
    (started_now finished_now : String) : Conn × SyncRunStats × Option String :=
  let state_before := HealthSyncDb.get_sync_state c.tables provider resource
  let (run_id, t1) := HealthSyncDb.start_sync_run c.tables provider resource
    ((state_before.bind SyncStateRow.watermark).map WInput.str) started_now
  let c1 : Conn := { c with tables := t1 }
  match body c1 with
  | (c2, stats, some e) =>
    let state_after := HealthSyncDb.get_sync_state c2.tables provider resource
    ({ c2 with tables := (HealthSyncDb.finish_sync_run c2.tables run_id "error"
        stats.inserted_count stats.updated_count stats.deleted_count stats.unchanged_count
        ((state_after.bind SyncStateRow.watermark).map WInput.str) (some e) finished_now) },
     stats, some e)
  | (c2, stats, none) =>
    let state_after := HealthSyncDb.get_sync_state c2.tables provider resource
    ({ c2 with tables := (HealthSyncDb.finish_sync_run c2.tables run_id "success"
        stats.inserted_count stats.updated_count stats.deleted_count stats.unchanged_count
        ((state_after.bind SyncStateRow.watermark).map WInput.str) none finished_now) },
     stats, none)

/-! ## SHA-256 (`hashlib.sha256(...).hexdigest()` in `util.sha256_hex`)

FIPS 180-4 over `Nat` with explicit `% 2^32`; bytes are `Nat`s below 256.
-/

namespace Sha256

def M32 : Nat := 4294967296

def rotr (x k : Nat) : Nat := x / 2 ^ k + x % 2 ^ k * 2 ^ (32 - k)

def shr (x k : Nat) : Nat := x / 2 ^ k

def not32 (x : Nat) : Nat := 4294967295 - x

def smallSigma0 (x : Nat) : Nat := Nat.xor (Nat.xor (rotr x 7) (rotr x 18)) (shr x 3)
def smallSigma1 (x : Nat) : Nat := Nat.xor (Nat.xor (rotr x 17) (rotr x 19)) (shr x 10)
def bigSigma0 (x : Nat) : Nat := Nat.xor (Nat.xor (rotr x 2) (rotr x 13)) (rotr x 22)
def bigSigma1 (x : Nat) : Nat := Nat.xor (Nat.xor (rotr x 6) (rotr x 11)) (rotr x 25)
def chFn (x y z : Nat) : Nat := Nat.xor (Nat.land x y) (Nat.land (not32 x) z)
def majFn (x y z : Nat) : Nat :=
  Nat.xor (Nat.xor (Nat.land x y) (Nat.land x z)) (Nat.land y z)

/-- The 64 round constants, in decimal. -/
def K : List Nat :=
  [1116352408, 1899447441, 3049323471, 3921009573, 961987163, 1508970993,
   2453635748, 2870763221, 3624381080, 310598401, 607225278, 1426881987,
   1925078388, 2162078206, 2614888103, 3248222580, 3835390401, 4022224774,
   264347078, 604807628, 770255983, 1249150122, 1555081692, 1996064986,
   2554220882, 2821834349, 2952996808, 3210313671, 3336571891, 3584528711,
   113926993, 338241895, 666307205, 773529912, 1294757372, 1396182291,
   1695183700, 1986661051, 2177026350, 2456956037, 2730485921, 2820302411,
   3259730800, 3345764771, 3516065817, 3600352804, 4094571909, 275423344,
   430227734, 506948616, 659060556, 883997877, 958139571, 1322822218,
   1537002063, 1747873779, 1955562222, 2024104815, 2227730452, 2361852424,
   2428436474, 2756734187, 3204031479, 3329325298]

structure St where
  a : Nat
  b : Nat
  c : Nat
  d : Nat
  e : Nat
  f : Nat
  g : Nat
  hh : Nat
deriving Repr

/-- The initial hash state, in decimal. -/
def initSt : St :=
  ⟨1779033703, 3144134277, 1013904242, 2773480762,
   1359893119, 2600822924, 528734635, 1541459225⟩

/-- Big-endian bytes of a 64-bit value. -/
def be64 (n : Nat) : List Nat :=
  [n / 2 ^ 56 % 256, n / 2 ^ 48 % 256, n / 2 ^ 40 % 256, n / 2 ^ 32 % 256,
   n / 2 ^ 24 % 256, n / 2 ^ 16 % 256, n / 2 ^ 8 % 256, n % 256]

/-- Big-endian bytes of a 32-bit word. -/
def be32 (n : Nat) : List Nat :=
  [n / 2 ^ 24 % 256, n / 2 ^ 16 % 256, n / 2 ^ 8 % 256, n % 256]

/-- Append `0x80`, zero padding to 56 mod 64, and the bit length. -/
def padMessage (msg : List Nat) : List Nat :=
  let len := msg.length
  let zeros := (119 - len % 64) % 64
  msg ++ 0x80 :: List.replicate zeros 0 ++ be64 (len * 8)

def toChunksGo : Nat → List Nat → List (List Nat)
  | 0, _ => []
  | _, [] => []
  | fuel + 1, l => l.take 64 :: toChunksGo fuel (l.drop 64)

def toChunks (l : List Nat) : List (List Nat) := toChunksGo l.length l

def toWordsGo : Nat → List Nat → List Nat
  | 0, _ => []
  | fuel + 1, b0 :: b1 :: b2 :: b3 :: rest =>
    (((b0 * 256 + b1) * 256 + b2) * 256 + b3) :: toWordsGo fuel rest
  | _ + 1, _ => []

def toWords (chunk : List Nat) : List Nat := toWordsGo 16 chunk

/-- Extend the 16-word block to the 64-word message schedule. -/
def extendGo : Nat → List Nat → List Nat
  | 0, w => w
  | k + 1, w =>
    let n := w.length
    let x := (smallSigma1 (w.getD (n - 2) 0) + w.getD (n - 7) 0 +
              smallSigma0 (w.getD (n - 15) 0) + w.getD (n - 16) 0) % M32
    extendGo k (w ++ [x])

def schedule (w16 : List Nat) : List Nat := extendGo 48 w16

def round (s : St) (kw : Nat × Nat) : St :=
  let t1 := (s.hh + bigSigma1 s.e + chFn s.e s.f s.g + kw.1 + kw.2) % M32
  let t2 := (bigSigma0 s.a + majFn s.a s.b s.c) % M32
  ⟨(t1 + t2) % M32, s.a, s.b, s.c, (s.d + t1) % M32, s.e, s.f, s.g⟩

def compress (s : St) (chunk : List Nat) : St :=
  let t := (K.zip (schedule (toWords chunk))).foldl round s
  ⟨(s.a + t.a) % M32, (s.b + t.b) % M32, (s.c + t.c) % M32, (s.d + t.d) % M32,
   (s.e + t.e) % M32, (s.f + t.f) % M32, (s.g + t.g) % M32, (s.hh + t.hh) % M32⟩

def digestBytes (s : St) : List Nat :=
  be32 s.a ++ be32 s.b ++ be32 s.c ++ be32 s.d ++
  be32 s.e ++ be32 s.f ++ be32 s.g ++ be32 s.hh

def sha256Bytes (msg : List Nat) : List Nat :=
  digestBytes ((toChunks (padMessage msg)).foldl compress initSt)

end Sha256

/-- `s.encode("utf-8")` as a byte list. -/
def utf8Bytes (s : String) : List Nat :=
  s.data.flatMap fun c =>
    let n := c.toNat
    if n < 0x80 then [n]
    else if n < 0x800 then [0xC0 + n / 64, 0x80 + n % 64]
    else if n < 0x10000 then [0xE0 + n / 4096, 0x80 + n / 64 % 64, 0x80 + n % 64]
    else [0xF0 + n / 262144, 0x80 + n / 4096 % 64, 0x80 + n / 64 % 64, 0x80 + n % 64]

/-- Two lowercase hex digits of a byte. -/
def byteHex (b : Nat) : List Char := [Nat.digitChar (b / 16 % 16), Nat.digitChar (b % 16)]

/-- `sha256_hex` (util.py): `hashlib.sha256(s.encode("utf-8")).hexdigest()`. -/
def sha256_hex (s : String) : String :=
  ⟨(Sha256.sha256Bytes (utf8Bytes s)).flatMap byteHex⟩

/-! ## Provider runtime helpers (`providers/runtime.py`) -/

/-- `str(value)` on a decoded-JSON value.  `repr`-style rendering of
containers is modelled via `pyRepr` below; the engine only applies it to
strings, numbers and booleans. -/
def pyReprStrEsc (c : Char) : List Char :=
  if c = '\\' then ['\\', '\\']
  else if c = '\'' then ['\\', '\'']
  else if c = '\n' then ['\\', 'n']
  else if c = '\t' then ['\\', 't']
  else if c = '\r' then ['\\', 'r']
  else if c.toNat < 32 then '\\' :: 'x' :: byteHex c.toNat
  else [c]

/-- `repr` of a Python string: single-quoted with escapes. -/
def pyReprOfStr (s : String) : String :=
  ⟨'\'' :: s.data.flatMap pyReprStrEsc ++ ['\'']⟩

mutual
def pyRepr : Json → String
  | .null => "None"
  | .bool true => "True"
  | .bool false => "False"
  | .num n => toString n
  | .str s => pyReprOfStr s
  | .arr xs => "[" ++ pyReprList xs ++ "]"
  | .obj kvs => "\x7b" ++ pyReprObj kvs ++ "\x7d"
termination_by structural v => v

def pyReprList : List Json → String
  | [] => ""
  | [x] => pyRepr x
  | x :: xs => pyRepr x ++ ", " ++ pyReprList xs
termination_by structural l => l

def pyReprObj : List (String × Json) → String
  | [] => ""
  | [(k, v)] => pyReprOfStr k ++ ": " ++ pyRepr v
  | (k, v) :: kvs => pyReprOfStr k ++ ": " ++ pyRepr v ++ ", " ++ pyReprObj kvs
termination_by structural l => l
end

def pyStr : Json → String
  | .str s => s
  | .num n => toString n
  | .bool true => "True"
  | .bool false => "False"
  | .null => "None"
  | .arr xs => pyRepr (.arr xs)
  | .obj kvs => pyRepr (.obj kvs)

/-- `value is not None and value != ""` (only `None` and the empty string
are rejected; `0` and `False` are kept, as in the source). -/
def candidateOk : Json → Bool
  | .null => false
  | .str s => !(s = "")
  | _ => true

/-- `first_present` (runtime.py lines 98-104): the first key present in
the item whose value is neither `None` nor `""`. -/
def first_present (item : List (String × Json)) : List String → Option Json
  | [] => none
  | key :: keys =>
    match alookup item key with
    | some v => if candidateOk v then some v else first_present item keys
    | none => first_present item keys

/-- `record_id_for` (runtime.py lines 107-120): first candidate field,
else the content hash tagged by the (truthy) fallback prefix. -/
def record_id_for (item : List (String × Json)) (keys : List String)
    ( fallback_prefix : Option String) : String :=
  match first_present item keys with
  | some v => pyStr v
  | none =>
    let rid := sha256_hex (stable_json (.obj item))
    match fallback_prefix with
    | some p => if p = "" then rid else p ++ ":" ++ rid
    | none => rid

/-- `upsert_item` (runtime.py lines 123-150). -/
def upsert_item (db : Tables) (run : SyncRunStats) (provider resource : String)
    (item : List (String × Json))
    (record_id_keys start_keys end_keys updated_keys : List String)
    ( fallback_prefix : Option String) (fetched_at : String) :
    String × Tables × SyncRunStats :=
  let rid := record_id_for item record_id_keys fallback_prefix
  let start_time := first_present item start_keys
  let end_time := first_present item end_keys
  let source_updated_at := first_present item updated_keys
  let (op, db') := HealthSyncDb.upsert_record db provider resource rid (.obj item)
    (start_time.map pyStr) (end_time.map pyStr) (source_updated_at.map pyStr) fetched_at
  (op, db', run.add_upsert op)

/-- `HealthSyncDb.transaction` generalized over the value the enclosed
block computes (the Python context manager is transparent to it; the
`SyncRunStats` mutations in particular are plain Python object state and
survive a rollback). -/
def HealthSyncDb.transactionWith {α : Type} (c : Conn)
    (body : Conn → Conn × α × Option String) : Conn × α × Option String :=
  let seq := c.seq + 1
  let sp := "tx_" ++ toString seq
  let c1 := execSavepoint { c with seq := seq } sp
  match body c1 with
  | (c2, a, none) => (execRelease c2 sp, a, none)
  | (c2, a, some e) => (execRelease (execRollbackTo c2 sp) sp, a, some e)

/-- `sync_resource` (runtime.py lines 153-158): a `sync_run` scope whose
body runs inside a `transaction()` scope. -/
def sync_resource (c : Conn) (provider resource : String)
    (body : Conn → Conn × SyncRunStats × Option String)
    (started_now finished_now : String) : Conn × SyncRunStats × Option String :=
  HealthSyncDb.sync_run c provider resource
    (fun c1 => HealthSyncDb.transactionWith c1 body) started_now finished_now

/-! ## Credential gate (`providers/runtime.py`, `providers/oura.py`) -/

/-- `normalize_expires_at` (runtime.py lines 49-71).  `.error` models the
uncaught exception of the digit branch: `datetime.fromtimestamp` raises
past year 9999 and nothing catches it there, while the date and ISO parse
branches catch their exceptions and return `None`. -/
def normalize_expires_at : Option WInput → Except Unit (Option PyDateTime)
  | none => .ok none
  | some (.dt d) => .ok (some d.withUTCIfNaive)
  | some (.num e) =>
    -- `str(int)` is all digits for a non-negative value (the digit branch,
    -- uncaught out of range); a negative value stringifies with a leading
    -- `-` and fails every parse
    if 0 ≤ e then
      if e ≤ maxEpoch then .ok (some (epochToUTC e)) else .error ()
    else .ok none
  | some (.str s0) =>
    let raw := pyStrip s0
    if raw = "" then .ok none
    else if isDigits raw then
      if (strToNat raw : Int) ≤ maxEpoch then .ok (some (epochToUTC (strToNat raw)))
      else .error ()
    else if isDate10Shape raw then
      .ok (fromisoformat (raw ++ "T00:00:00+00:00"))
    else .ok (iso_to_dt raw)

/-- `token_expiring_soon` (runtime.py lines 74-86): `exp <= now_dt +
timedelta(seconds=max(0, int(skew_seconds)))` with a missing or
unparseable expiry treated as expiring.  `nowUs` is the aware `now`
instant in epoch microseconds and the comparison is at full `datetime`
precision.  A naive parsed expiry makes the comparison raise `TypeError`
(naive against aware), and the digit-branch exception propagates;
both are `.error`. -/
def token_expiring_soon (expires_at : Option WInput) (nowUs : Int)
    (skew_seconds : Int) : Except Unit Bool :=
  match normalize_expires_at expires_at with
  | .error e => .error e
  | .ok none => .ok true
  | .ok (some exp) =>
    match exp.tzoffset with
    | none => .error ()
    | some _ => .ok (decide (exp.toEpochUs ≤ nowUs + max 0 skew_seconds * 1000000))

/-- Outcome of `_oura_refresh_if_needed` (oura.py lines 219-244) up to the
point where it either returns the cached token or commits to a refresh
request with the stored refresh token. -/
inductive OuraGate where
  | fatalMissing : OuraGate
  | fatalNoRefresh : OuraGate
  | useCached (access_token : String) : OuraGate
  | refresh (refresh_token : String) : OuraGate
deriving DecidableEq, Repr

/-- `_oura_refresh_if_needed`, decision part: a missing credential row and
a missing refresh token are fatal `RuntimeError`s; a missing, empty or
unparseable `expires_at` is read as `now - 1 day` (long expired, the
`except` around `iso_to_dt` catches only the parse failure); the cached
token is returned only when `exp - now > 60` seconds.  The subtraction
`exp - datetime.now(UTC)` stands outside the `try`, so a *naive* parsed
expiry raises `TypeError` (`.error`); `nowUs` is `datetime.now(UTC)` in
epoch microseconds. -/
def oura_refresh_decision (tok : Option TokenRow) (nowUs : Int) :
    Except Unit OuraGate :=
  match tok with
  | none => .ok .fatalMissing
  | some t =>
    let rt := t.refresh_token.getD ""
    if rt = "" then .ok .fatalNoRefresh
    else
      let expUs : Except Unit Int :=
        match t.expires_at with
        | some s =>
          if s = "" then .ok (nowUs - 86400000000)
          else
            match iso_to_dt s with
            | some d =>
              match d.tzoffset with
              | some _ => .ok d.toEpochUs
              | none => .error ()
            | none => .ok (nowUs - 86400000000)
        | none => .ok (nowUs - 86400000000)
      match expUs with
      | .error e => .error e
      | .ok e =>
        .ok (if 60000000 < e - nowUs then .useCached t.access_token else .refresh rt)

/-! ## HTTP retry/backoff client (`util.request_json`)

One outbound attempt either raises a network-level exception or yields a
response; the environment is a function from attempt index to outcome.
`time.sleep` calls are collected in order as the second component of the
result. -/

inductive RespBody where
  /-- `resp.json()` succeeds. -/
  | json (j : Json) : RespBody
  /-- `resp.json()` raises; `resp.text` is this string. -/
  | text (t : String) : RespBody
deriving Repr

structure HttpResponse where
  status : Nat
  retry_after : Option String
  x_trace_id : Option String
  x_request_id : Option String
  body : RespBody
deriving Repr

inductive AttemptOutcome where
  | exn (e : String) : AttemptOutcome
  | resp (r : HttpResponse) : AttemptOutcome
deriving Repr

inductive ReqResult where
  | success (j : Json) : ReqResult
  /-- non-retried `RuntimeError` -/
  | fatal (msg : String) : ReqResult
  /-- `RuntimeError` after exhausting all attempts -/
  | exhausted (msg : String) : ReqResult
deriving Repr

mutual
/-- `json.dumps(j, ensure_ascii=True)` with the default separators
`", "` / `": "` (used only for the error-detail fallback). -/
def Json.dumpsDefault : Json → String
  | .null => "null"
  | .bool true => "true"
  | .bool false => "false"
  | .num n => toString n
  | .str s => jsonEscape s
  | .arr xs => "[" ++ Json.dumpsDefaultList xs ++ "]"
  | .obj kvs => "\x7b" ++ Json.dumpsDefaultObj kvs ++ "\x7d"
termination_by structural v => v

def Json.dumpsDefaultList : List Json → String
  | [] => ""
  | [x] => Json.dumpsDefault x
  | x :: xs => Json.dumpsDefault x ++ ", " ++ Json.dumpsDefaultList xs
termination_by structural l => l

def Json.dumpsDefaultObj : List (String × Json) → String
  | [] => ""
  | [(k, v)] => jsonEscape k ++ ": " ++ Json.dumpsDefault v
  | (k, v) :: kvs => jsonEscape k ++ ": " ++ Json.dumpsDefault v ++ ", " ++ Json.dumpsDefaultObj kvs
termination_by structural l => l
end

/-- The `error`/`error_description`/`detail`/`message` fields of a JSON
error body that are non-blank strings, rendered `key=value`. -/
def errParts (kvs : List (String × Json)) : List String :=
  ["error", "error_description", "detail", "message"].filterMap fun k =>
    match alookup kvs k with
    | some (.str v) => if pyStrip v = "" then none else some (k ++ "=" ++ pyStrip v)
    | _ => none

def joinCommaSp : List String → String
  | [] => ""
  | [x] => x
  | x :: xs => x ++ ", " ++ joinCommaSp xs

/-- Best-effort error detail: named fields of a JSON object, else the
dumped JSON, else a 500-character single-line text snippet. -/
def errDetail : RespBody → Option String
  | .json (.obj kvs) =>
    let parts := errParts kvs
    some (if parts.isEmpty then Json.dumpsDefault (.obj kvs) else joinCommaSp parts)
  | .json j => some (Json.dumpsDefault j)
  | .text t =>
    -- `(resp.text or "").strip().replace("\n", " ")[:500] or None`
    let d : String :=
      ⟨((pyStrip t).data.map fun c => if c = '\n' then ' ' else c).take 500⟩
    if d = "" then none else some d

/-- First truthy (non-empty) header value, as Python `a or b`. -/
def firstTruthy : List (Option String) → Option String
  | [] => none
  | some s :: rest => if s = "" then firstTruthy rest else some s
  | none :: rest => firstTruthy rest

/-- The fatal non-429 4xx message: `HTTP {code} for {method} {url}
(trace_id={tid})?: {detail}?`. -/
def errMsg (method url : String) (r : HttpResponse) : String :=
  let base := "HTTP " ++ toString r.status ++ " for " ++ method ++ " " ++ url
  let base := match firstTruthy [r.x_trace_id, r.x_request_id] with
    | some t => base ++ " (trace_id=" ++ t ++ ")"
    | none => base
  match errDetail r.body with
  | some d => base ++ ": " ++ d
  | none => base

/-- The retry loop of `request_json` (util.py lines 76-136), from a given
attempt index with the remaining attempts as fuel. -/
def request_json_go (responses : Nat → AttemptOutcome) (method url : String)
    (max_retries : Nat) : Nat → Nat → ReqResult × List Nat
  | _, 0 =>
    (.exhausted ("HTTP request failed after " ++ toString max_retries ++
      " attempts: " ++ method ++ " " ++ url), [])
  | attempt, fuel + 1 =>
    match responses attempt with
    | .exn _ =>
      let s := min 60 (2 ^ attempt)
      let (res, sleeps) := request_json_go responses method url max_retries (attempt + 1) fuel
      (res, s :: sleeps)
    | .resp r =>
      if r.status = 429 then
        -- `int(retry_after) if retry_after and retry_after.isdigit() else 2**attempt`
        let sleep_s :=
          match r.retry_after with
          | some ra => if isDigits ra then strToNat ra else 2 ^ attempt
          | none => 2 ^ attempt
        let s := min 60 (max 1 sleep_s)
        let (res, sleeps) := request_json_go responses method url max_retries (attempt + 1) fuel
        (res, s :: sleeps)
      else if 500 ≤ r.status then
        let s := min 60 (2 ^ attempt)
        let (res, sleeps) := request_json_go responses method url max_retries (attempt + 1) fuel
        (res, s :: sleeps)
      else if 400 ≤ r.status then
        (.fatal (errMsg method url r), [])
      else
        match r.body with
        | .json j => (.success j, [])
        | .text _ =>
          (.fatal ("Failed to parse JSON response for " ++ method ++ " " ++ url), [])

/-- `request_json` (util.py lines 58-136) with its outcome and the list of
sleep durations performed, in order. -/
def request_json (responses : Nat → AttemptOutcome) (method url : String)
    (max_retries : Nat) : ReqResult × List Nat :=
  request_json_go responses method url max_retries 0 max_retries

/-! ## Basic store lemmas -/

theorem alookup_aupsert {α β : Type} [DecidableEq α] (l : List (α × β)) (k : α) (v : β) :
    alookup (aupsert l k v) k = some v := by
  induction l with
  | nil => simp [aupsert, alookup]
  | cons hd tl ih =>
    by_cases h : hd.1 = k
    · simp [aupsert, alookup, h]
    · simpa [aupsert, alookup, h] using ih

/-- An event stream against a `SyncRunStats` object. -/
inductive StatsEvent where
  | upsert (op : String) : StatsEvent
  | del (b : Bool) : StatsEvent

def applyStatsEvent (s : SyncRunStats) : StatsEvent → SyncRunStats
  | .upsert op => s.add_upsert op
  | .del b => s.add_delete b

theorem applyStatsEvent_mono (s : SyncRunStats) (e : StatsEvent) :
    s.inserted_count ≤ (applyStatsEvent s e).inserted_count ∧
    s.updated_count ≤ (applyStatsEvent s e).updated_count ∧
    s.deleted_count ≤ (applyStatsEvent s e).deleted_count ∧
    s.unchanged_count ≤ (applyStatsEvent s e).unchanged_count := by
  cases e with
  | upsert op =>
    simp only [applyStatsEvent, SyncRunStats.add_upsert]
    split <;> try split
    all_goals try split
    all_goals simp
  | del b =>
    simp only [applyStatsEvent, SyncRunStats.add_delete]
    split <;> simp

theorem foldl_statsEvents_mono (s : SyncRunStats) (evs : List StatsEvent) :
    s.inserted_count ≤ (evs.foldl applyStatsEvent s).inserted_count ∧
    s.updated_count ≤ (evs.foldl applyStatsEvent s).updated_count ∧
    s.deleted_count ≤ (evs.foldl applyStatsEvent s).deleted_count ∧
    s.unchanged_count ≤ (evs.foldl applyStatsEvent s).unchanged_count := by
  induction evs generalizing s with
  | nil => simp
  | cons e tl ih =>
    have h1 := applyStatsEvent_mono s e
    have h2 := ih (applyStatsEvent s e)
    refine ⟨le_trans h1.1 h2.1, le_trans h1.2.1 h2.2.1,
      le_trans h1.2.2.1 h2.2.2.1, le_trans h1.2.2.2 h2.2.2.2⟩

/-- C10: every `SyncRunStats` update changes at most one counter by exactly
one — `add_upsert` bumps the counter matching `"inserted"`/`"updated"`/
`"unchanged"` and is the identity on any other string, `add_delete` bumps
`deleted_count` iff its argument is true — and consequently all four
counters (naturals from zero) are non-decreasing over any call sequence. -/
theorem syncRunStats_counter_updates :
    (∀ s : SyncRunStats, s.add_upsert "inserted" =
      { s with inserted_count := s.inserted_count + 1 })
  ∧ (∀ s : SyncRunStats, s.add_upsert "updated" =
      { s with updated_count := s.updated_count + 1 })
  ∧ (∀ s : SyncRunStats, s.add_upsert "unchanged" =
      { s with unchanged_count := s.unchanged_count + 1 })
  ∧ (∀ (s : SyncRunStats) (op : String), op ≠ "inserted" → op ≠ "updated" →
      op ≠ "unchanged" → s.add_upsert op = s)
  ∧ (∀ s : SyncRunStats, s.add_delete true =
      { s with deleted_count := s.deleted_count + 1 })
  ∧ (∀ s : SyncRunStats, s.add_delete false = s)
  ∧ (∀ (s : SyncRunStats) (evs : List StatsEvent),
      s.inserted_count ≤ (evs.foldl applyStatsEvent s).inserted_count ∧
      s.updated_count ≤ (evs.foldl applyStatsEvent s).updated_count ∧
      s.deleted_count ≤ (evs.foldl applyStatsEvent s).deleted_count ∧
      s.unchanged_count ≤ (evs.foldl applyStatsEvent s).unchanged_count) := by
  refine ⟨fun s => rfl, fun s => rfl, fun s => rfl, fun s op h1 h2 h3 => ?_,
    fun s => rfl, fun s => rfl, foldl_statsEvents_mono⟩
  simp [SyncRunStats.add_upsert, h1, h2, h3]

/-- Witness for C10 at concrete inputs: an unrecognized operation string
leaves the counters alone, `"inserted"` bumps exactly `inserted_count`. -/
theorem syncRunStats_counter_updates_witness :
    SyncRunStats.add_upsert ⟨0, 0, 0, 0⟩ "skipped" = ⟨0, 0, 0, 0⟩ ∧
    SyncRunStats.add_upsert ⟨0, 0, 0, 0⟩ "inserted" = ⟨1, 0, 0, 0⟩ :=
  ⟨syncRunStats_counter_updates.2.2.2.1 ⟨0, 0, 0, 0⟩ "skipped"
      (by decide) (by decide) (by decide),
   syncRunStats_counter_updates.1 ⟨0, 0, 0, 0⟩⟩

/-- C1: `upsert_record` always writes the row (so `fetched_at` is
refreshed even for an unchanged record), and classifies the outcome by a
byte-for-byte comparison of the serialized payload and the three time
fields against the stored row: no stored row → `"inserted"`; all four
equal → `"unchanged"`; anything differing → `"updated"`. -/
theorem upsert_record_classification (db : Tables) (p r rid : String)
    (payload : Json) (st et sua : Option String) (fa : String) :
    (alookup (HealthSyncDb.upsert_record db p r rid payload st et sua fa).2.records
        (p, r, rid) = some ⟨st, et, sua, payload.dumps, fa⟩)
  ∧ (alookup db.records (p, r, rid) = none →
      (HealthSyncDb.upsert_record db p r rid payload st et sua fa).1 = "inserted")
  ∧ (∀ row, alookup db.records (p, r, rid) = some row →
      ((HealthSyncDb.upsert_record db p r rid payload st et sua fa).1 = "unchanged" ↔
        (row.payload_json = payload.dumps ∧ row.start_time = st ∧
         row.end_time = et ∧ row.source_updated_at = sua)))
  ∧ (∀ row, alookup db.records (p, r, rid) = some row →
      ((HealthSyncDb.upsert_record db p r rid payload st et sua fa).1 = "updated" ↔
        ¬ (row.payload_json = payload.dumps ∧ row.start_time = st ∧
           row.end_time = et ∧ row.source_updated_at = sua))) := by
  refine ⟨?_, ?_, ?_, ?_⟩
  · simp [HealthSyncDb.upsert_record, alookup_aupsert]
  · intro h
    simp [HealthSyncDb.upsert_record, h]
  · intro row h
    by_cases hc : row.payload_json = payload.dumps ∧ row.start_time = st ∧
        row.end_time = et ∧ row.source_updated_at = sua
    · simp [HealthSyncDb.upsert_record, h, hc]
    · simp only [HealthSyncDb.upsert_record, h]
      simp [hc]
  · intro row h
    by_cases hc : row.payload_json = payload.dumps ∧ row.start_time = st ∧
        row.end_time = et ∧ row.source_updated_at = sua
    · simp only [HealthSyncDb.upsert_record, h, hc, if_pos]
      simp [hc]
    · simp [HealthSyncDb.upsert_record, h, hc]

/-- Witness for C1, replaying the spec's scenario on a fresh store: the
first upsert of a record is `"inserted"`, re-upserting identical payload
and time fields is `"unchanged"` (and still rewrites the row with the new
`fetched_at`), and upserting a changed payload is `"updated"`. -/
theorem upsert_record_classification_witness :
    (HealthSyncDb.upsert_record Tables.empty "oura" "daily_sleep" "2026-02-11"
        (.obj [("score", .num 80)]) (some "2026-02-11") none none "t1").1 = "inserted" ∧
    (HealthSyncDb.upsert_record
        (HealthSyncDb.upsert_record Tables.empty "oura" "daily_sleep" "2026-02-11"
          (.obj [("score", .num 80)]) (some "2026-02-11") none none "t1").2
        "oura" "daily_sleep" "2026-02-11"
        (.obj [("score", .num 80)]) (some "2026-02-11") none none "t2").1 = "unchanged" ∧
    (HealthSyncDb.upsert_record
        (HealthSyncDb.upsert_record Tables.empty "oura" "daily_sleep" "2026-02-11"
          (.obj [("score", .num 80)]) (some "2026-02-11") none none "t1").2
        "oura" "daily_sleep" "2026-02-11"
        (.obj [("score", .num 81)]) (some "2026-02-11") none none "t3").1 = "updated" := by
  refine ⟨?_, ?_, ?_⟩
  · exact (upsert_record_classification Tables.empty "oura" "daily_sleep" "2026-02-11"
      (.obj [("score", .num 80)]) (some "2026-02-11") none none "t1").2.1 rfl
  · exact ((upsert_record_classification
      (HealthSyncDb.upsert_record Tables.empty "oura" "daily_sleep" "2026-02-11"
        (.obj [("score", .num 80)]) (some "2026-02-11") none none "t1").2
      "oura" "daily_sleep" "2026-02-11"
      (.obj [("score", .num 80)]) (some "2026-02-11") none none "t2").2.2.1
      ⟨some "2026-02-11", none, none, "\x7b\"score\":80\x7d", "t1"⟩ rfl).mpr
      ⟨rfl, rfl, rfl, rfl⟩
  · exact ((upsert_record_classification
      (HealthSyncDb.upsert_record Tables.empty "oura" "daily_sleep" "2026-02-11"
        (.obj [("score", .num 80)]) (some "2026-02-11") none none "t1").2
      "oura" "daily_sleep" "2026-02-11"
      (.obj [("score", .num 81)]) (some "2026-02-11") none none "t3").2.2.2
      ⟨some "2026-02-11", none, none, "\x7b\"score\":80\x7d", "t1"⟩ rfl).mpr
      (by intro hc; exact absurd hc.1 (by decide))

/-- C3: `transaction()` uses savepoint semantics, so it also works nested
inside an already-open transaction (`c0` carries an arbitrary savepoint
stack).  A write `f` performed before entering the scope (e.g. a
credential refresh) survives when the scope exits via an exception, while
the writes `g` made inside the scope are rolled back to the boundary and
the exception propagates; on normal exit the scope's writes commit at that
boundary.  (Only the monotonically increasing savepoint sequence number
remains bumped, as in the source.) -/
theorem transaction_savepoint_semantics (c0 : Conn) (f g : Tables → Tables)
    (e : String) :
    (HealthSyncDb.transaction { c0 with tables := f c0.tables }
        (fun c1 => ({ c1 with tables := g c1.tables }, some e)) =
      ({ c0 with tables := f c0.tables, seq := c0.seq + 1 }, some e))
  ∧ (HealthSyncDb.transaction { c0 with tables := f c0.tables }
        (fun c1 => ({ c1 with tables := g c1.tables }, none)) =
      ({ c0 with tables := g (f c0.tables), seq := c0.seq + 1 }, none)) := by
  constructor
  · simp [HealthSyncDb.transaction, execSavepoint, execRollbackTo, execRelease, popTo]
  · simp [HealthSyncDb.transaction, execSavepoint, execRelease, popTo]

theorem find?_append_eq {α : Type} (l1 l2 : List α) (p : α → Bool) :
    (l1 ++ l2).find? p = ((l1.find? p).orElse fun _ => l2.find? p) := by
  induction l1 with
  | nil => simp
  | cons hd tl ih => cases hp : p hd <;> simp [List.find?, hp, ih]

theorem findRun_updateRun (runs : List SyncRunRow) (rid : Nat)
    (f : SyncRunRow → SyncRunRow) (hf : ∀ row, (f row).id = row.id) :
    (HealthSyncDb.updateRun runs rid f).find? (fun row => decide (row.id = rid)) =
      (runs.find? (fun row => decide (row.id = rid))).map f := by
  induction runs with
  | nil => simp [HealthSyncDb.updateRun]
  | cons hd tl ih =>
    by_cases h : hd.id = rid
    · simp [HealthSyncDb.updateRun, List.find?, h, hf]
    · simpa [HealthSyncDb.updateRun, List.find?, h] using ih

theorem findRun_finish (db : Tables) (rid : Nat) (status : String)
    (ic uc dc nc : Nat) (wma : Option WInput) (et : Option String) (fin : String) :
    findRun (HealthSyncDb.finish_sync_run db rid status ic uc dc nc wma et fin) rid =
      (findRun db rid).map (fun row =>
        { row with
            status := status
            finished_at := some fin
            inserted_count := ic
            updated_count := uc
            deleted_count := dc
            unchanged_count := nc
            watermark_after := _normalize_watermark wma
            error_text := et }) := by
  simp only [findRun, HealthSyncDb.finish_sync_run]
  exact findRun_updateRun _ _ _ (fun row => rfl)

/-- The connection state right after `sync_run` has read the watermark and
inserted the `running` audit row (the state the enclosed body runs in). -/
def syncRunEntry (c : Conn) (p r sn : String) : Conn :=
  { c with tables := (HealthSyncDb.start_sync_run c.tables p r
      (((HealthSyncDb.get_sync_state c.tables p r).bind SyncStateRow.watermark).map
        WInput.str) sn).2 }

/-- C2: every sync attempt entered through the `sync_run` scope gets
exactly one finalization of its audit row (id `c.tables.next_run_id`):
status `"success"` on normal exit, status `"error"` with `error_text` the
raised message and the counters accumulated so far when the body raises —
and the exception still propagates (last conjunct).  In both cases the row
is never left `"running"`.  The hypothesis is the frame condition that the
enclosed body does not itself rewrite this run's audit row. -/
theorem sync_run_finalizes (c : Conn) (p r : String)
    (body : Conn → Conn × SyncRunStats × Option String) (sn fn : String)
    (hpres : findRun (body (syncRunEntry c p r sn)).1.tables c.tables.next_run_id =
             findRun (syncRunEntry c p r sn).tables c.tables.next_run_id) :
    ∃ row,
      findRun (HealthSyncDb.sync_run c p r body sn fn).1.tables c.tables.next_run_id
        = some row ∧
      row.status = (if (body (syncRunEntry c p r sn)).2.2.isSome then "error"
                    else "success") ∧
      row.status ≠ "running" ∧
      row.error_text = (body (syncRunEntry c p r sn)).2.2 ∧
      row.inserted_count = (body (syncRunEntry c p r sn)).2.1.inserted_count ∧
      row.updated_count = (body (syncRunEntry c p r sn)).2.1.updated_count ∧
      row.deleted_count = (body (syncRunEntry c p r sn)).2.1.deleted_count ∧
      row.unchanged_count = (body (syncRunEntry c p r sn)).2.1.unchanged_count ∧
      (HealthSyncDb.sync_run c p r body sn fn).2.2 =
        (body (syncRunEntry c p r sn)).2.2 := by
  have hentry : (findRun (syncRunEntry c p r sn).tables c.tables.next_run_id).isSome := by
    simp only [syncRunEntry, findRun, HealthSyncDb.start_sync_run]
    rw [find?_append_eq]
    cases hfst : List.find? (fun row => decide (row.id = c.tables.next_run_id))
        c.tables.sync_runs with
    | none => simp [hfst, List.find?]
    | some row0 => simp [hfst]
  obtain ⟨row0, hrow0⟩ := Option.isSome_iff_exists.mp hentry
  have hrun : HealthSyncDb.sync_run c p r body sn fn =
      (match body (syncRunEntry c p r sn) with
       | (c2, stats, some e) =>
         ({ c2 with tables := (HealthSyncDb.finish_sync_run c2.tables
             c.tables.next_run_id "error" stats.inserted_count stats.updated_count
             stats.deleted_count stats.unchanged_count
             (((HealthSyncDb.get_sync_state c2.tables p r).bind
                SyncStateRow.watermark).map WInput.str) (some e) fn) },
          stats, some e)
       | (c2, stats, none) =>
         ({ c2 with tables := (HealthSyncDb.finish_sync_run c2.tables
             c.tables.next_run_id "success" stats.inserted_count stats.updated_count
             stats.deleted_count stats.unchanged_count
             (((HealthSyncDb.get_sync_state c2.tables p r).bind
                SyncStateRow.watermark).map WInput.str) none fn) },
          stats, none)) := rfl
  rcases hb : body (syncRunEntry c p r sn) with ⟨c2, stats, exn⟩
  have hpres' : findRun c2.tables c.tables.next_run_id = some row0 := by
    have h := hpres
    rw [hb] at h
    simpa [hrow0] using h
  rw [hrun, hb]
  cases exn with
  | none =>
    refine ⟨{ row0 with
                status := "success"
                finished_at := some fn
                inserted_count := stats.inserted_count
                updated_count := stats.updated_count
                deleted_count := stats.deleted_count
                unchanged_count := stats.unchanged_count
                watermark_after := (_normalize_watermark
                  (((HealthSyncDb.get_sync_state c2.tables p r).bind
                     SyncStateRow.watermark).map WInput.str))
                error_text := none },
      ?_, rfl, (show ("success" : String) ≠ "running" by decide),
      rfl, rfl, rfl, rfl, rfl, rfl⟩
    show findRun (HealthSyncDb.finish_sync_run c2.tables c.tables.next_run_id
      "success" stats.inserted_count stats.updated_count stats.deleted_count
      stats.unchanged_count
      (((HealthSyncDb.get_sync_state c2.tables p r).bind SyncStateRow.watermark).map
        WInput.str) none fn) c.tables.next_run_id = _
    rw [findRun_finish, hpres']
    rfl
  | some e =>
    refine ⟨{ row0 with
                status := "error"
                finished_at := some fn
                inserted_count := stats.inserted_count
                updated_count := stats.updated_count
                deleted_count := stats.deleted_count
                unchanged_count := stats.unchanged_count
                watermark_after := (_normalize_watermark
                  (((HealthSyncDb.get_sync_state c2.tables p r).bind
                     SyncStateRow.watermark).map WInput.str))
                error_text := some e },
      ?_, rfl, (show ("error" : String) ≠ "running" by decide),
      rfl, rfl, rfl, rfl, rfl, rfl⟩
    show findRun (HealthSyncDb.finish_sync_run c2.tables c.tables.next_run_id
      "error" stats.inserted_count stats.updated_count stats.deleted_count
      stats.unchanged_count
      (((HealthSyncDb.get_sync_state c2.tables p r).bind SyncStateRow.watermark).map
        WInput.str) (some e) fn) c.tables.next_run_id = _
    rw [findRun_finish, hpres']
    rfl

/-- A provider body that inserts one record through `upsert_item` and then
raises `"boom"`. -/
def demoFailingBody : Conn → Conn × SyncRunStats × Option String := fun cIn =>
  let r := upsert_item cIn.tables ⟨0, 0, 0, 0⟩ "oura" "daily_activity"
    [("id", .str "2026-02-12"), ("steps", .num 10000)] ["id"] [] [] [] none "t1"
  ({ cIn with tables := r.2.1 }, r.2.2, some "boom")

/-- Witness for C2: on a fresh store, a sync attempt that performs one
successful insert and then raises `"boom"` finalizes its audit row as
`status="error"` with `error_text="boom"` and `inserted_count=1`, and the
exception propagates out of the scope. -/
theorem sync_run_finalizes_witness :
    ∃ row,
      findRun (HealthSyncDb.sync_run (Conn.fresh Tables.empty) "oura" "daily_activity"
          demoFailingBody "t0" "t2").1.tables 1 = some row ∧
      row.status = "error" ∧ row.status ≠ "running" ∧ row.error_text = some "boom" ∧
      row.inserted_count = 1 ∧
      (HealthSyncDb.sync_run (Conn.fresh Tables.empty) "oura" "daily_activity"
          demoFailingBody "t0" "t2").2.2 = some "boom" := by
  obtain ⟨row, h1, h2, h3, h4, h5, _, _, _, h9⟩ :=
    sync_run_finalizes (Conn.fresh Tables.empty) "oura" "daily_activity"
      demoFailingBody "t0" "t2" rfl
  exact ⟨row, h1, h2, h3, h4, h5, h9⟩

theorem transactionWith_raise {α : Type} (c : Conn) (g : Tables → Tables) (a : α)
    (e : String) :
    HealthSyncDb.transactionWith c
        (fun c1 => ({ c1 with tables := g c1.tables }, a, some e)) =
      ({ c with seq := c.seq + 1 }, a, some e) := by
  simp [HealthSyncDb.transactionWith, execSavepoint, execRollbackTo, execRelease, popTo]

/-- A provider body as composed by `sync_resource`: a nested `transaction()`
scope that advances the watermark and then raises. -/
def rollbackScenarioBody (p r wmNew upd e : String) :
    Conn → Conn × SyncRunStats × Option String := fun c1 =>
  HealthSyncDb.transactionWith c1 (fun cIn =>
    ({ cIn with tables := (HealthSyncDb.set_sync_state cIn.tables p r
        (some (.str wmNew)) none none upd) },
     ⟨0, 0, 0, 0⟩, some e))

/-- C8: when the body of a `sync_run` scope raises, the audit row's
`watermark_after` records the sync-state watermark re-read at
error-recording time from the state the failure left behind (first
conjunct), and the exception is re-raised to the caller after the error
row is written (the scope's result still carries the exception while its
tables already contain the finalized row).  Second conjunct: under the
`sync_resource` composition — a nested `transaction()` that advances the
watermark to `wmNew` and then raises — the recorded value is the
surviving (rolled-back-to) watermark of the enclosing state, not the
discarded `wmNew`, and the exception still propagates. -/
theorem sync_run_error_watermark (c : Conn) (p r : String)
    (body : Conn → Conn × SyncRunStats × Option String) (sn fn e : String)
    (hpres : findRun (body (syncRunEntry c p r sn)).1.tables c.tables.next_run_id =
             findRun (syncRunEntry c p r sn).tables c.tables.next_run_id)
    (herr : (body (syncRunEntry c p r sn)).2.2 = some e) :
    ((∃ row, findRun (HealthSyncDb.sync_run c p r body sn fn).1.tables
          c.tables.next_run_id = some row ∧
        row.watermark_after = _normalize_watermark
          (((HealthSyncDb.get_sync_state (body (syncRunEntry c p r sn)).1.tables
              p r).bind SyncStateRow.watermark).map WInput.str)) ∧
      (HealthSyncDb.sync_run c p r body sn fn).2.2 = some e)
  ∧ (∀ wmNew upd : String,
      (∃ row, findRun (HealthSyncDb.sync_run c p r
            (rollbackScenarioBody p r wmNew upd e) sn fn).1.tables
            c.tables.next_run_id = some row ∧
        row.watermark_after = _normalize_watermark
          (((HealthSyncDb.get_sync_state c.tables p r).bind
             SyncStateRow.watermark).map WInput.str)) ∧
      (HealthSyncDb.sync_run c p r (rollbackScenarioBody p r wmNew upd e)
          sn fn).2.2 = some e) := by
  have hentry : (findRun (syncRunEntry c p r sn).tables c.tables.next_run_id).isSome := by
    simp only [syncRunEntry, findRun, HealthSyncDb.start_sync_run]
    rw [find?_append_eq]
    cases hfst : List.find? (fun row => decide (row.id = c.tables.next_run_id))
        c.tables.sync_runs with
    | none => simp [hfst, List.find?]
    | some row0 => simp [hfst]
  obtain ⟨row0, hrow0⟩ := Option.isSome_iff_exists.mp hentry
  have key : ∀ (bodyK : Conn → Conn × SyncRunStats × Option String),
      findRun (bodyK (syncRunEntry c p r sn)).1.tables c.tables.next_run_id =
        findRun (syncRunEntry c p r sn).tables c.tables.next_run_id →
      (bodyK (syncRunEntry c p r sn)).2.2 = some e →
      (∃ row, findRun (HealthSyncDb.sync_run c p r bodyK sn fn).1.tables
            c.tables.next_run_id = some row ∧
        row.watermark_after = _normalize_watermark
          (((HealthSyncDb.get_sync_state (bodyK (syncRunEntry c p r sn)).1.tables
              p r).bind SyncStateRow.watermark).map WInput.str)) ∧
      (HealthSyncDb.sync_run c p r bodyK sn fn).2.2 = some e := by
    intro bodyK hpresK herrK
    have hrun : HealthSyncDb.sync_run c p r bodyK sn fn =
        (match bodyK (syncRunEntry c p r sn) with
         | (c2, stats, some e') =>
           ({ c2 with tables := (HealthSyncDb.finish_sync_run c2.tables
               c.tables.next_run_id "error" stats.inserted_count stats.updated_count
               stats.deleted_count stats.unchanged_count
               (((HealthSyncDb.get_sync_state c2.tables p r).bind
                  SyncStateRow.watermark).map WInput.str) (some e') fn) },
            stats, some e')
         | (c2, stats, none) =>
           ({ c2 with tables := (HealthSyncDb.finish_sync_run c2.tables
               c.tables.next_run_id "success" stats.inserted_count stats.updated_count
               stats.deleted_count stats.unchanged_count
               (((HealthSyncDb.get_sync_state c2.tables p r).bind
                  SyncStateRow.watermark).map WInput.str) none fn) },
            stats, none)) := rfl
    rcases hb : bodyK (syncRunEntry c p r sn) with ⟨c2, stats, exn⟩
    rw [hb] at herrK
    cases exn with
    | none => exact absurd herrK (by simp)
    | some e' =>
      have he : e' = e := by simpa using herrK
      have hpres' : findRun c2.tables c.tables.next_run_id = some row0 := by
        have h := hpresK
        rw [hb] at h
        simpa [hrow0] using h
      rw [hrun, hb]
      constructor
      · refine ⟨{ row0 with
                    status := "error"
                    finished_at := some fn
                    inserted_count := stats.inserted_count
                    updated_count := stats.updated_count
                    deleted_count := stats.deleted_count
                    unchanged_count := stats.unchanged_count
                    watermark_after := (_normalize_watermark
                      (((HealthSyncDb.get_sync_state c2.tables p r).bind
                         SyncStateRow.watermark).map WInput.str))
                    error_text := some e' }, ?_, ?_⟩
        · show findRun (HealthSyncDb.finish_sync_run c2.tables c.tables.next_run_id
            "error" stats.inserted_count stats.updated_count stats.deleted_count
            stats.unchanged_count
            (((HealthSyncDb.get_sync_state c2.tables p r).bind
               SyncStateRow.watermark).map WInput.str) (some e') fn)
            c.tables.next_run_id = _
          rw [findRun_finish, hpres']
          rfl
        · rfl
      · exact congrArg some he
  refine ⟨key body hpres herr, ?_⟩
  intro wmNew upd
  have hb : rollbackScenarioBody p r wmNew upd e (syncRunEntry c p r sn) =
      ({ syncRunEntry c p r sn with seq := (syncRunEntry c p r sn).seq + 1 },
       (⟨0, 0, 0, 0⟩ : SyncRunStats), some e) := by
    simp only [rollbackScenarioBody]
    exact transactionWith_raise (syncRunEntry c p r sn)
      (fun t => HealthSyncDb.set_sync_state t p r (some (.str wmNew)) none none upd)
      (⟨0, 0, 0, 0⟩ : SyncRunStats) e
  have hpres2 : findRun (rollbackScenarioBody p r wmNew upd e
        (syncRunEntry c p r sn)).1.tables c.tables.next_run_id =
      findRun (syncRunEntry c p r sn).tables c.tables.next_run_id := by
    rw [hb]
  have herr2 : (rollbackScenarioBody p r wmNew upd e
        (syncRunEntry c p r sn)).2.2 = some e := by
    rw [hb]
  obtain ⟨⟨row, hfind, hwm⟩, hprop⟩ :=
    key (rollbackScenarioBody p r wmNew upd e) hpres2 herr2
  refine ⟨⟨row, hfind, ?_⟩, hprop⟩
  rw [hwm, hb]
  rfl

/-- Witness for C8: starting from a store whose watermark for
`oura/daily_sleep` is `2026-02-10T00:00:00Z`, a body that advances the
watermark to `2026-02-12` inside a nested transaction and then raises
`"boom"` produces an audit row whose `watermark_after` is the surviving
`2026-02-10T00:00:00Z` (not the rolled-back value), and the exception
propagates. -/
theorem sync_run_error_watermark_witness :
    (∃ row, findRun (HealthSyncDb.sync_run
        (Conn.fresh (HealthSyncDb.set_sync_state Tables.empty "oura" "daily_sleep"
          (some (.str "2026-02-10")) none none "u0"))
        "oura" "daily_sleep"
        (rollbackScenarioBody "oura" "daily_sleep" "2026-02-12" "u1" "boom")
        "t0" "t2").1.tables 1 = some row ∧
      row.watermark_after = some "2026-02-10T00:00:00Z") ∧
    (HealthSyncDb.sync_run
        (Conn.fresh (HealthSyncDb.set_sync_state Tables.empty "oura" "daily_sleep"
          (some (.str "2026-02-10")) none none "u0"))
        "oura" "daily_sleep"
        (rollbackScenarioBody "oura" "daily_sleep" "2026-02-12" "u1" "boom")
        "t0" "t2").2.2 = some "boom" := by
  obtain ⟨⟨row, hf, hw⟩, hp⟩ :=
    (sync_run_error_watermark
      (Conn.fresh (HealthSyncDb.set_sync_state Tables.empty "oura" "daily_sleep"
        (some (.str "2026-02-10")) none none "u0"))
      "oura" "daily_sleep"
      (rollbackScenarioBody "oura" "daily_sleep" "2026-02-12" "u1" "boom")
      "t0" "t2" "boom" rfl rfl).2 "2026-02-12" "u1"
  exact ⟨⟨row, hf, hw.trans (by decide)⟩, hp⟩

/-! ## Watermark normalization theorems -/

theorem digitChar_isDigit_of_lt (k : Nat) (h : k < 10) :
    (Nat.digitChar k).isDigit = true := by
  interval_cases k <;> decide

theorem digitChar_mod_isDigit (n : Nat) : (Nat.digitChar (n % 10)).isDigit = true :=
  digitChar_isDigit_of_lt _ (Nat.mod_lt _ (by norm_num))

/-- Whatever the field values, the fixed-width rendering has the canonical
`YYYY-MM-DDTHH:MM:SSZ` shape. -/
theorem isCanonicalTs_formatZ (d : PyDateTime) : isCanonicalTs (formatZ d) = true := by
  simp [isCanonicalTs, formatZ, pad4, pad2, digitChar_mod_isDigit]

/-- C4: every accepted timestamp input form — a typed instant (aware or
naive, naive read as UTC), an integer/float epoch, a digit-only string, a
10-character `YYYY-MM-DD` date string, or an ISO-8601 string (`Z` suffix
or naive) — normalizes to the UTC second-precision canonical form
`YYYY-MM-DDTHH:MM:SSZ`; the range hypotheses delimit the values
`datetime` accepts (years 1..9999).  In particular `1770715852 ↦
"2026-02-10T09:30:52Z"` and `"2026-02-10" ↦ "2026-02-10T00:00:00Z"`. -/
theorem normalize_watermark_canonical :
    (∀ d : PyDateTime, minEpochUs ≤ d.withUTCIfNaive.toEpochUs →
       d.withUTCIfNaive.toEpochUs ≤ maxEpochUs →
       ∃ o, _normalize_watermark (some (.dt d)) = some o ∧ isCanonicalTs o = true)
  ∧ (∀ e : Int, minEpoch ≤ e → e ≤ maxEpoch →
       ∃ o, _normalize_watermark (some (.num e)) = some o ∧ isCanonicalTs o = true)
  ∧ (∀ s : String, isDigits (pyStrip s) = true → (strToNat (pyStrip s) : Int) ≤ maxEpoch →
       ∃ o, _normalize_watermark (some (.str s)) = some o ∧ isCanonicalTs o = true)
  ∧ (∀ (s : String) (d : PyDateTime), isDigits (pyStrip s) = false →
       isDate10Shape (pyStrip s) = true →
       fromisoformat (pyStrip s ++ "T00:00:00+00:00") = some d →
       ∃ o, _normalize_watermark (some (.str s)) = some o ∧ isCanonicalTs o = true)
  ∧ (∀ (s : String) (d : PyDateTime), pyStrip s ≠ "" → isDigits (pyStrip s) = false →
       isDate10Shape (pyStrip s) = false →
       fromisoformat (zToOffset (pyStrip s)) = some d →
       minEpochUs ≤ d.withUTCIfNaive.toEpochUs → d.withUTCIfNaive.toEpochUs ≤ maxEpochUs →
       ∃ o, _normalize_watermark (some (.str s)) = some o ∧ isCanonicalTs o = true)
  ∧ _normalize_watermark (some (.num 1770715852)) = some "2026-02-10T09:30:52Z"
  ∧ _normalize_watermark (some (.str "2026-02-10")) = some "2026-02-10T00:00:00Z" := by
  refine ⟨?_, ?_, ?_, ?_, ?_, by decide, by decide⟩
  · intro d _ _
    exact ⟨formatZ (normDT d), rfl, isCanonicalTs_formatZ _⟩
  · intro e _ _
    exact ⟨formatZ (epochToUTC e), rfl, isCanonicalTs_formatZ _⟩
  · intro s h1 h2
    have hne : ¬ pyStrip s = "" := by
      intro h
      rw [h] at h1
      exact absurd h1 (by decide)
    refine ⟨formatZ (epochToUTC (strToNat (pyStrip s))), ?_, isCanonicalTs_formatZ _⟩
    simp [_normalize_watermark, hne, h1, h2]
  · intro s d h1 h2 h3
    have hne : ¬ pyStrip s = "" := by
      intro h
      rw [h] at h2
      exact absurd h2 (by decide)
    refine ⟨formatZ d, ?_, isCanonicalTs_formatZ _⟩
    simp [_normalize_watermark, hne, h1, h2, h3]
  · intro s d hne h1 h2 h3 h4 h5
    refine ⟨formatZ (epochToUTC (d.withUTCIfNaive.toEpochUs.ediv 1000000)), ?_,
      isCanonicalTs_formatZ _⟩
    simp [_normalize_watermark, hne, h1, h2, isoBranch, h3, h4, h5]

/-- Witness for C4 at one concrete input per accepted form: a naive typed
instant, the epoch `1770715852`, the digit string `"1770715852"`, the date
string `"2026-02-11"`, and the offset ISO string
`"2026-02-10T10:30:52+01:00"`. -/
theorem normalize_watermark_canonical_witness :
    (∃ o, _normalize_watermark (some (.dt ⟨2026, 2, 10, 9, 30, 52, 0, none⟩)) = some o ∧
      isCanonicalTs o = true) ∧
    (∃ o, _normalize_watermark (some (.num 1770715852)) = some o ∧
      isCanonicalTs o = true) ∧
    (∃ o, _normalize_watermark (some (.str "1770715852")) = some o ∧
      isCanonicalTs o = true) ∧
    (∃ o, _normalize_watermark (some (.str "2026-02-11")) = some o ∧
      isCanonicalTs o = true) ∧
    (∃ o, _normalize_watermark (some (.str "2026-02-10T10:30:52+01:00")) = some o ∧
      isCanonicalTs o = true) :=
  ⟨normalize_watermark_canonical.1 ⟨2026, 2, 10, 9, 30, 52, 0, none⟩
     (by decide) (by decide),
   normalize_watermark_canonical.2.1 1770715852 (by decide) (by decide),
   normalize_watermark_canonical.2.2.1 "1770715852" (by decide) (by decide),
   normalize_watermark_canonical.2.2.2.1 "2026-02-11" ⟨2026, 2, 11, 0, 0, 0, 0, some 0⟩
     (by decide) (by decide) (by decide),
   normalize_watermark_canonical.2.2.2.2.1 "2026-02-10T10:30:52+01:00"
     ⟨2026, 2, 10, 10, 30, 52, 0, some 3600000000⟩
     (by decide) (by decide) (by decide) (by decide) (by decide) (by decide)⟩

/-- Counterexample to C5 as stated: the source first applies
`str(v).strip()` and returns the *stripped* string, so an unparseable
input carrying surrounding whitespace is not returned unchanged
(`" opaque-cursor "` comes back as `"opaque-cursor"`). -/
theorem normalize_watermark_not_verbatim :
    _normalize_watermark (some (.str " opaque-cursor ")) ≠ some " opaque-cursor " := by
  decide

/-- C5 (amended): a string input whose *stripped* form is non-empty and
fails every parse attempt — not digit-only, not a parseable
10-character date, and not `datetime.fromisoformat`-parsable (in any of
its forms, ISO week dates and basic formats included; the
out-of-range-conversion exception path inside `isoBranch` also lands
here) — is stored as the stripped string itself, unmodified; opaque
vendor cursors without surrounding whitespace therefore pass through
verbatim. -/
theorem normalize_watermark_verbatim_passthrough (s : String)
    (h0 : pyStrip s ≠ "")
    (h1 : isDigits (pyStrip s) = false)
    (h2 : isDate10Shape (pyStrip s) = true →
          fromisoformat (pyStrip s ++ "T00:00:00+00:00") = none)
    (h3 : isDate10Shape (pyStrip s) = false → isoBranch (pyStrip s) = none) :
    _normalize_watermark (some (.str s)) = some (pyStrip s) := by
  by_cases hds : isDate10Shape (pyStrip s) = true
  · simp [_normalize_watermark, h0, h1, hds, h2 hds]
  · have hds' : isDate10Shape (pyStrip s) = false := by simpa using hds
    simp [_normalize_watermark, h0, h1, hds', h3 hds']

/-- Witness for the amended C5: the opaque cursor `"cursor_abc123"` fails
every parse and passes through unmodified. -/
theorem normalize_watermark_verbatim_passthrough_witness :
    _normalize_watermark (some (.str "cursor_abc123")) = some "cursor_abc123" :=
  normalize_watermark_verbatim_passthrough "cursor_abc123"
    (by decide) (by decide) (by decide) (by decide)

/-! ## Credential gate theorems -/

/-- Counterexample to C6 as stated: a credential whose `expires_at` is
null is *not* served from cache — `token_expiring_soon` classifies it as
expiring, and the oura gate (with a refresh token cached) commits to a
refresh rather than returning the cached access token. -/
theorem credential_gate_null_counterexample :
    token_expiring_soon none 1770715852000000 60 = .ok true ∧
    oura_refresh_decision
        (some ⟨"cached-token", some "refresh-1", some "Bearer", none, none,
               "2026-01-01T00:00:00Z", none⟩) 1770715852000000 =
      .ok (.refresh "refresh-1") := by
  exact ⟨rfl, rfl⟩

/-- C6 (amended): the credential gate returns the cached access token only
when `expires_at` parses to an *aware* instant lying more than the
60-second skew threshold in the future.  A null, empty or unparseable
`expires_at` is treated as expiring — `token_expiring_soon` reports true
and the oura gate, reading it as a day in the past, refreshes with the
cached refresh token — and an `expires_at` within 60 seconds (or past)
likewise refreshes; a missing credential row or missing refresh token is
fatal.  Two inputs escape as exceptions instead of deciding: a digit-only
`expires_at` past year 9999 (`datetime.fromtimestamp` raises uncaught in
`normalize_expires_at`), and an ISO `expires_at` without a UTC offset,
whose naive parse raises `TypeError` when compared or subtracted against
the aware `now`. -/
theorem credential_gate_refresh_decision :
    (∀ (now skew : Int), token_expiring_soon none now skew = .ok true)
  ∧ (∀ (s : String) (now skew : Int), pyStrip s = "" →
      token_expiring_soon (some (.str s)) now skew = .ok true)
  ∧ (∀ (s : String) (now skew : Int), pyStrip s ≠ "" →
      isDigits (pyStrip s) = false → isDate10Shape (pyStrip s) = false →
      iso_to_dt (pyStrip s) = none →
      token_expiring_soon (some (.str s)) now skew = .ok true)
  ∧ (∀ (s : String) (now skew : Int), isDigits (pyStrip s) = true →
      maxEpoch < (strToNat (pyStrip s) : Int) →
      normalize_expires_at (some (.str s)) = .error () ∧
      token_expiring_soon (some (.str s)) now skew = .error ())
  ∧ (∀ (s : String) (d : PyDateTime) (now skew off : Int),
      normalize_expires_at (some (.str s)) = .ok (some d) →
      d.tzoffset = some off →
      (token_expiring_soon (some (.str s)) now skew = .ok false ↔
        now + max 0 skew * 1000000 < d.toEpochUs))
  ∧ (∀ (s : String) (d : PyDateTime) (now skew : Int),
      normalize_expires_at (some (.str s)) = .ok (some d) →
      d.tzoffset = none →
      token_expiring_soon (some (.str s)) now skew = .error ())
  ∧ (∀ (t : TokenRow) (now off : Int) (rt s : String) (d : PyDateTime),
      t.refresh_token = some rt → rt ≠ "" → t.expires_at = some s → s ≠ "" →
      iso_to_dt s = some d → d.tzoffset = some off →
      oura_refresh_decision (some t) now =
        .ok (if 60000000 < d.toEpochUs - now then .useCached t.access_token
             else .refresh rt))
  ∧ (∀ (t : TokenRow) (now : Int) (rt s : String) (d : PyDateTime),
      t.refresh_token = some rt → rt ≠ "" → t.expires_at = some s → s ≠ "" →
      iso_to_dt s = some d → d.tzoffset = none →
      oura_refresh_decision (some t) now = .error ())
  ∧ (∀ (t : TokenRow) (now : Int) (rt : String),
      t.refresh_token = some rt → rt ≠ "" →
      (t.expires_at = none ∨ t.expires_at = some "" ∨
       (∃ s, t.expires_at = some s ∧ iso_to_dt s = none)) →
      oura_refresh_decision (some t) now = .ok (.refresh rt))
  ∧ (∀ (t : TokenRow) (now : Int),
      t.refresh_token = none ∨ t.refresh_token = some "" →
      oura_refresh_decision (some t) now = .ok .fatalNoRefresh)
  ∧ (∀ now : Int, oura_refresh_decision none now = .ok .fatalMissing) := by
  have hexpired : ∀ now : Int, ¬ (60000000 : Int) < now - 86400000000 - now := by
    intro now
    omega
  refine ⟨fun now skew => rfl, ?_, ?_, ?_, ?_, ?_, ?_, ?_, ?_, ?_, fun now => rfl⟩
  · intro s now skew h
    simp [token_expiring_soon, normalize_expires_at, h]
  · intro s now skew h0 h1 h2 h3
    simp [token_expiring_soon, normalize_expires_at, h0, h1, h2, h3]
  · intro s now skew h1 h2
    have h0 : ¬ pyStrip s = "" := by
      intro h
      rw [h] at h1
      exact absurd h1 (by decide)
    have h2' : ¬ (strToNat (pyStrip s) : Int) ≤ maxEpoch := not_le.mpr h2
    constructor
    · simp [normalize_expires_at, h0, h1, h2']
    · simp [token_expiring_soon, normalize_expires_at, h0, h1, h2']
  · intro s d now skew off hnorm hoff
    simp only [token_expiring_soon, hnorm, hoff]
    rw [Except.ok.injEq, decide_eq_false_iff_not, not_le]
  · intro s d now skew hnorm hoff
    simp [token_expiring_soon, hnorm, hoff]
  · intro t now off rt s d hrt hne hexp hsne hdt hoff
    simp [oura_refresh_decision, hrt, hne, hexp, hsne, hdt, hoff]
  · intro t now rt s d hrt hne hexp hsne hdt hoff
    simp [oura_refresh_decision, hrt, hne, hexp, hsne, hdt, hoff]
  · intro t now rt hrt hne hcase
    rcases hcase with h | h | ⟨s, hexp, hparse⟩
    · simp [oura_refresh_decision, hrt, hne, h, hexpired now]
    · simp [oura_refresh_decision, hrt, hne, h, hexpired now]
    · by_cases hsne : s = ""
      · simp [oura_refresh_decision, hrt, hne, hexp, hsne, hexpired now]
      · simp [oura_refresh_decision, hrt, hne, hexp, hsne, hparse, hexpired now]
  · intro t now hcase
    rcases hcase with h | h <;> simp [oura_refresh_decision, h]

/-- Witness for the amended C6 at `now = 2026-02-18T00:00:00Z` (epoch
microseconds 1771372800000000): an empty and an unparseable `expires_at`
count as expiring, a 17-digit epoch raises out of `normalize_expires_at`,
a `Z`-suffixed expiry ten minutes out is not expiring (the iff reduces to
the skew comparison), a naive expiry raises; the oura gate serves the
cache for the aware far-future expiry, refreshes for a null one and
raises for a naive one. -/
theorem credential_gate_refresh_decision_witness :
    token_expiring_soon (some (.str "   ")) 1771372800000000 60 = .ok true ∧
    token_expiring_soon (some (.str "not-a-date")) 1771372800000000 60 = .ok true ∧
    normalize_expires_at (some (.str "99999999999999999")) = .error () ∧
    token_expiring_soon (some (.str "99999999999999999")) 1771372800000000 60 =
      .error () ∧
    (token_expiring_soon (some (.str "2026-02-18T00:10:00Z")) 1771372800000000 60 =
        .ok false ↔
      (1771372800000000 : Int) + max 0 60 * 1000000 < 1771373400000000) ∧
    token_expiring_soon (some (.str "2026-02-18T00:10:00")) 1771372800000000 60 =
      .error () ∧
    oura_refresh_decision
        (some ⟨"tok-a", some "r-a", none, none, some "2026-02-18T00:10:00Z",
               "2026-02-17T00:00:00Z", none⟩) 1771372800000000 =
      .ok (if (60000000 : Int) < 1771373400000000 - 1771372800000000 then
             .useCached "tok-a"
           else .refresh "r-a") ∧
    oura_refresh_decision
        (some ⟨"tok-b", some "r-b", none, none, none,
               "2026-02-17T00:00:00Z", none⟩) 1771372800000000 =
      .ok (.refresh "r-b") ∧
    oura_refresh_decision
        (some ⟨"tok-c", some "r-c", none, none, some "2026-02-18T00:10:00",
               "2026-02-17T00:00:00Z", none⟩) 1771372800000000 = .error () :=
  ⟨credential_gate_refresh_decision.2.1 "   " 1771372800000000 60 (by decide),
   credential_gate_refresh_decision.2.2.1 "not-a-date" 1771372800000000 60
     (by decide) (by decide) (by decide) (by decide),
   (credential_gate_refresh_decision.2.2.2.1 "99999999999999999" 1771372800000000 60
     (by decide) (by decide)).1,
   (credential_gate_refresh_decision.2.2.2.1 "99999999999999999" 1771372800000000 60
     (by decide) (by decide)).2,
   credential_gate_refresh_decision.2.2.2.2.1 "2026-02-18T00:10:00Z"
     ⟨2026, 2, 18, 0, 10, 0, 0, some 0⟩ 1771372800000000 60 0 rfl rfl,
   credential_gate_refresh_decision.2.2.2.2.2.1 "2026-02-18T00:10:00"
     ⟨2026, 2, 18, 0, 10, 0, 0, none⟩ 1771372800000000 60 rfl rfl,
   credential_gate_refresh_decision.2.2.2.2.2.2.1
     ⟨"tok-a", some "r-a", none, none, some "2026-02-18T00:10:00Z",
      "2026-02-17T00:00:00Z", none⟩ 1771372800000000 0 "r-a" "2026-02-18T00:10:00Z"
     ⟨2026, 2, 18, 0, 10, 0, 0, some 0⟩ rfl (by decide) rfl (by decide) rfl rfl,
   credential_gate_refresh_decision.2.2.2.2.2.2.2.2.1
     ⟨"tok-b", some "r-b", none, none, none, "2026-02-17T00:00:00Z", none⟩
     1771372800000000 "r-b" rfl (by decide) (Or.inl rfl),
   credential_gate_refresh_decision.2.2.2.2.2.2.2.1
     ⟨"tok-c", some "r-c", none, none, some "2026-02-18T00:10:00",
      "2026-02-17T00:00:00Z", none⟩ 1771372800000000 "r-c" "2026-02-18T00:10:00"
     ⟨2026, 2, 18, 0, 10, 0, 0, none⟩ rfl (by decide) rfl (by decide) rfl rfl⟩

/-! ## HTTP retry client theorems -/

/-- Counterexample to C7 as stated: `request_json` parses `Retry-After`
only as digit-seconds (`retry_after.isdigit()`); a well-formed HTTP-date
header is *not* honored — two valid HTTP-dates 48 years apart both
produce the 1-second exponential-backoff sleep of attempt 0, exactly as a
malformed header would. -/
theorem retry_after_http_date_counterexample :
    request_json (fun i => if i = 0 then
        .resp ⟨429, some "Wed, 11 Feb 2026 09:30:52 GMT", none, none, .text ""⟩
      else .resp ⟨200, none, none, none, .json (.obj [])⟩) "GET" "https://api" 5 =
      (.success (.obj []), [1]) ∧
    request_json (fun i => if i = 0 then
        .resp ⟨429, some "Sun, 11 Feb 2074 09:30:52 GMT", none, none, .text ""⟩
      else .resp ⟨200, none, none, none, .json (.obj [])⟩) "GET" "https://api" 5 =
      (.success (.obj []), [1]) :=
  ⟨rfl, rfl⟩

/-- C7 (amended): the retry client retries an HTTP 429, sleeping the
`Retry-After` value when it is a digit-only string of seconds (clamped
into `[1, 60]`); any other header — missing, malformed, or an HTTP-date —
falls back to the exponential backoff `min(60, 2^attempt)`.  A non-429
4xx response is never retried: it raises at the attempt it arrives on,
with no sleep and no further request, and its message embeds the status
code and the JSON body's `error`/`error_description` fields. -/
theorem request_json_retry_classification :
    (∀ (resps : Nat → AttemptOutcome) (m u ra : String) (tid rid : Option String)
        (b : RespBody) (j : Json),
      resps 0 = .resp ⟨429, some ra, tid, rid, b⟩ →
      resps 1 = .resp ⟨200, none, none, none, .json j⟩ →
      isDigits ra = true →
      request_json resps m u 5 = (.success j, [min 60 (max 1 (strToNat ra))]))
  ∧ (∀ (resps : Nat → AttemptOutcome) (m u ra : String) (tid rid : Option String)
        (b : RespBody) (j : Json),
      resps 0 = .resp ⟨429, some ra, tid, rid, b⟩ →
      resps 1 = .resp ⟨200, none, none, none, .json j⟩ →
      isDigits ra = false →
      request_json resps m u 5 = (.success j, [1]))
  ∧ (∀ (resps : Nat → AttemptOutcome) (m u e ra : String) (tid rid : Option String)
        (b : RespBody) (j : Json),
      resps 0 = .exn e →
      resps 1 = .resp ⟨429, some ra, tid, rid, b⟩ →
      resps 2 = .resp ⟨200, none, none, none, .json j⟩ →
      isDigits ra = false →
      request_json resps m u 5 = (.success j, [1, 2]))
  ∧ (∀ (resps : Nat → AttemptOutcome) (m u : String) (r : HttpResponse),
      resps 0 = .resp r → 400 ≤ r.status → r.status ≠ 429 → r.status < 500 →
      request_json resps m u 5 = (.fatal (errMsg m u r), []))
  ∧ (∀ (m u e d : String) (stN : Nat) (ra : Option String),
      pyStrip e ≠ "" → pyStrip d ≠ "" →
      errMsg m u ⟨stN, ra, none, none,
          .json (.obj [("error", .str e), ("error_description", .str d)])⟩ =
        "HTTP " ++ toString stN ++ " for " ++ m ++ " " ++ u ++ ": error=" ++
          pyStrip e ++ ", error_description=" ++ pyStrip d) := by
  refine ⟨?_, ?_, ?_, ?_, ?_⟩
  · intro resps m u ra tid rid b j h0 h1 hd
    simp [request_json, request_json_go, h0, h1, hd]
  · intro resps m u ra tid rid b j h0 h1 hd
    simp [request_json, request_json_go, h0, h1, hd]
  · intro resps m u e ra tid rid b j h0 h1 h2 hd
    simp [request_json, request_json_go, h0, h1, h2, hd]
  · intro resps m u r h0 h4 h429 h5
    simp [request_json, request_json_go, h0, h429, h4, Nat.not_le.mpr h5]
  · intro m u e d stN ra he hd
    simp [errMsg, errDetail, errParts, firstTruthy, alookup, joinCommaSp, he, hd,
      List.filterMap, String.append_assoc]
    have h1 : ∀ x : String, ": " ++ ("error=" ++ x) = ": error=" ++ x := by
      intro x
      rw [← String.append_assoc]
      exact congrArg (· ++ x) (by decide)
    have h2 : ∀ x : String,
        ", " ++ ("error_description=" ++ x) = ", error_description=" ++ x := by
      intro x
      rw [← String.append_assoc]
      exact congrArg (· ++ x) (by decide)
    rw [h1, h2]

/-- Witness for the amended C7: a 429 with `Retry-After: 3` sleeps 3
seconds and the retry succeeds; a 403 carrying vendor error fields raises
immediately — no sleep, no retry — with the fields embedded in the
message. -/
theorem request_json_retry_classification_witness :
    request_json (fun i => if i = 0 then
        .resp ⟨429, some "3", none, none, .text ""⟩
      else .resp ⟨200, none, none, none, .json (.obj [])⟩) "GET" "https://api" 5 =
      (.success (.obj []), [3]) ∧
    request_json (fun _ =>
        .resp ⟨403, none, none, none,
          .json (.obj [("error", .str "forbidden"),
                       ("error_description", .str "scope revoked")])⟩)
      "GET" "https://api" 5 =
      (.fatal
        "HTTP 403 for GET https://api: error=forbidden, error_description=scope revoked",
       []) := by
  constructor
  · exact request_json_retry_classification.1 _ "GET" "https://api" "3" none none
      (.text "") (.obj []) rfl rfl (by decide)
  · have h := request_json_retry_classification.2.2.2.1
      (fun _ => .resp ⟨403, none, none, none,
        .json (.obj [("error", .str "forbidden"),
                     ("error_description", .str "scope revoked")])⟩)
      "GET" "https://api"
      ⟨403, none, none, none,
        .json (.obj [("error", .str "forbidden"),
                     ("error_description", .str "scope revoked")])⟩
      rfl (by decide) (by decide) (by decide)
    rw [h]
    rfl

/-! ## Record-id derivation theorems -/

theorem sha256Bytes_length (msg : List Nat) :
    (Sha256.sha256Bytes msg).length = 32 := by
  simp [Sha256.sha256Bytes, Sha256.digestBytes, Sha256.be32]

theorem flatMap_byteHex_length (l : List Nat) :
    (l.flatMap byteHex).length = 2 * l.length := by
  induction l with
  | nil => simp
  | cons a t ih =>
    simp [byteHex, ih]
    omega

theorem sha256_hex_length (s : String) : (sha256_hex s).length = 64 := by
  show ((Sha256.sha256Bytes (utf8Bytes s)).flatMap byteHex).length = 64
  rw [flatMap_byteHex_length, sha256Bytes_length]

/-- Two prefix-tagged ids with fixed-width hash parts are distinguishable
whenever their tags differ. -/
theorem tagged_ne_of_prefix_ne {p1 p2 h1 h2 : String}
    (hl1 : h1.length = 64) (hl2 : h2.length = 64) (hp : p1 ≠ p2) :
    p1 ++ ":" ++ h1 ≠ p2 ++ ":" ++ h2 := by
  intro he
  apply hp
  have hdata := congrArg String.data he
  simp only [String.data_append, List.append_assoc] at hdata
  have hlen : p1.data.length = p2.data.length := by
    have h := congrArg String.length he
    simp only [String.length_append, hl1, hl2] at h
    have : p1.length = p2.length := by omega
    exact this
  exact String.ext (List.append_inj hdata hlen).1

/-- Counterexample to C9 as stated: "two items with different content map
to distinguishable ids" fails whenever a candidate id field governs — two
items sharing the `id` value `"x"` but with different payload content map
to the *same* record id `"x"` (which is, in fact, the behavior the
upsert-and-diff design relies on: a changed payload re-fetched under the
same vendor id must land on the same row). -/
theorem record_id_content_collision :
    record_id_for [("id", .str "x"), ("v", .num 1)] ["id"] none = "x" ∧
    record_id_for [("id", .str "x"), ("v", .num 2)] ["id"] none = "x" ∧
    stable_json (.obj [("id", .str "x"), ("v", .num 1)]) ≠
      stable_json (.obj [("id", .str "x"), ("v", .num 2)]) :=
  ⟨rfl, rfl, by decide⟩

/-- C9 (amended): record-id derivation is the deterministic function of
the item, the ordered candidate-key list, and the optional type tag given
by: the string value of the first present candidate field if any;
otherwise the SHA-256 hex of the item's stable-sorted-keys JSON
serialization, prefixed by the (non-empty) item-type tag.  Among items
with no candidate field present, ids are distinguishable whenever the
type tags differ, and — under any common tag — whenever the content
hashes differ. -/
theorem record_id_for_spec :
    (∀ (item : List (String × Json)) (keys : List String) (p : Option String)
        (v : Json), first_present item keys = some v →
       record_id_for item keys p = pyStr v)
  ∧ (∀ (item : List (String × Json)) (keys : List String),
       first_present item keys = none →
       record_id_for item keys none = sha256_hex (stable_json (.obj item)))
  ∧ (∀ (item : List (String × Json)) (keys : List String) (p : String),
       first_present item keys = none → p ≠ "" →
       record_id_for item keys (some p) =
         p ++ ":" ++ sha256_hex (stable_json (.obj item)))
  ∧ (∀ (i1 i2 : List (String × Json)) (k1 k2 : List String) (p1 p2 : String),
       first_present i1 k1 = none → first_present i2 k2 = none →
       p1 ≠ "" → p2 ≠ "" → p1 ≠ p2 →
       record_id_for i1 k1 (some p1) ≠ record_id_for i2 k2 (some p2))
  ∧ (∀ (i1 i2 : List (String × Json)) (k1 k2 : List String) (p : Option String),
       first_present i1 k1 = none → first_present i2 k2 = none →
       sha256_hex (stable_json (.obj i1)) ≠ sha256_hex (stable_json (.obj i2)) →
       record_id_for i1 k1 p ≠ record_id_for i2 k2 p) := by
  have c1 : ∀ (item : List (String × Json)) (keys : List String) (p : Option String)
      (v : Json), first_present item keys = some v →
      record_id_for item keys p = pyStr v := by
    intro item keys p v h
    simp [record_id_for, h]
  have c2 : ∀ (item : List (String × Json)) (keys : List String),
      first_present item keys = none →
      record_id_for item keys none = sha256_hex (stable_json (.obj item)) := by
    intro item keys h
    simp [record_id_for, h]
  have c3 : ∀ (item : List (String × Json)) (keys : List String) (p : String),
      first_present item keys = none → p ≠ "" →
      record_id_for item keys (some p) =
        p ++ ":" ++ sha256_hex (stable_json (.obj item)) := by
    intro item keys p h hp
    simp [record_id_for, h, hp]
  refine ⟨c1, c2, c3, ?_, ?_⟩
  · intro i1 i2 k1 k2 p1 p2 h1 h2 hp1 hp2 hne
    rw [c3 i1 k1 p1 h1 hp1, c3 i2 k2 p2 h2 hp2]
    exact tagged_ne_of_prefix_ne (sha256_hex_length _) (sha256_hex_length _) hne
  · intro i1 i2 k1 k2 p h1 h2 hh
    cases p with
    | none =>
      rw [c2 i1 k1 h1, c2 i2 k2 h2]
      exact hh
    | some p =>
      by_cases hp : p = ""
      · have e1 : record_id_for i1 k1 (some p) =
            sha256_hex (stable_json (.obj i1)) := by
          simp [record_id_for, h1, hp]
        have e2 : record_id_for i2 k2 (some p) =
            sha256_hex (stable_json (.obj i2)) := by
          simp [record_id_for, h2, hp]
        rw [e1, e2]
        exact hh
      · rw [c3 i1 k1 p h1 hp, c3 i2 k2 p h2 hp]
        intro he
        apply hh
        have hdata := congrArg String.data he
        simp only [String.data_append, List.append_assoc] at hdata
        exact String.ext
          (List.append_cancel_left (List.append_cancel_left hdata))

/-- Witness for the amended C9: two items with no candidate field under
tags `"event"` and `"unknown"` get distinguishable ids. -/
theorem record_id_for_spec_witness :
    first_present [("v", .num 1)] ["id"] = none ∧
    record_id_for [("v", .num 1)] ["id"] (some "event") ≠
      record_id_for [("v", .num 2)] ["id"] (some "unknown") :=
  ⟨rfl,
   record_id_for_spec.2.2.2.1 [("v", .num 1)] [("v", .num 2)] ["id"] ["id"]
     "event" "unknown" rfl rfl (by decide) (by decide) (by decide)⟩

end HealthSync
